import Mathlib

/-!
# bisq-add-on: offer matching, trade orchestration and settlement

A shallow embedding of `server/handles.go`, `server/utils.go` and
`api/handles.go`.

Modelling conventions.

* A Go `map[string]V` is an association list with pairwise distinct keys
  (`AList`).  The order of the entries stands for the order in which one
  `range` loop visits them; Go leaves that order unspecified, and every
  theorem about a loop is proved for every order.
* A Go `error` is `Option String`: `none` is `nil`, `some msg` carries the
  text of `err.Error()`.  A `(T, error)` result is `Except String T`.
* `int`, `int32` and `int64` fields are `Int`.  The code only copies and
  compares them, it never computes with them.
* `float64` fields are never read by the code; they are carried as the bit
  pattern of the value.  `time.Time` is carried as its JSON text.
* The HTTP client, `http.NewRequest`'s validation and the JSON decoder are
  external to the repository and are parameters (`Env`).  The state of the
  outside world is threaded through every `client.Do`.
* The mutex and the logger are not modelled: the handlers are embedded as
  the sequential behaviour of one request at a time.  Concurrent requests
  are modelled separately, as schedules of the steps that the mutex
  delimits (`runSchedule`).
* Two ghost logs are kept: the api functions that were entered and the
  HTTP requests that were handed to `client.Do`.
-/

namespace Bisq

/-! ## Go maps -/

/-- A Go `map[string]V`. -/
abbrev GoMap (V : Type) := AList (fun _ : String => V)

namespace GoMap

/-- The result of `make(map[string]V)`. -/
def empty {V : Type} : GoMap V := (∅ : AList (fun _ : String => V))

/-- The statement `m[k] = v`. -/
def set {V : Type} (m : GoMap V) (k : String) (v : V) : GoMap V := AList.insert k v m

/-- The expression `m[k]` for a map of pointers: `none` is the nil pointer
that Go returns for a missing key. -/
def get? {V : Type} (m : GoMap V) (k : String) : Option V := AList.lookup k m

/-- The expression `m[k]` for a `map[string]string`: a missing key reads as
the empty string. -/
def getStr (m : GoMap String) (k : String) : String := (AList.lookup k m).getD ""

end GoMap

/-! ## Data model of `api/handles.go` -/

/-- The bits of a `float64`. -/
abbrev GoFloat64 := Nat

def BisqAPIURL : String := "http://localhost:8080"
def PaymentAccountsURL : String := "/api/v1/payment-accounts"
def OfferURL : String := "/api/v1/offers"
/-- The format `"/api/v1/offers/%s/take"` applied to its one argument. -/
def TakeOfferURL (id : String) : String := "/api/v1/offers/" ++ id ++ "/take"
/-- The format `"/api/v1/trades/%s/payment-started"` applied to its one argument. -/
def PaymentStartedURL (id : String) : String := "/api/v1/trades/" ++ id ++ "/payment-started"
/-- The format `"/api/v1/trades/%s/payment-received"` applied to its one argument. -/
def PaymentReceivedURL (id : String) : String := "/api/v1/trades/" ++ id ++ "/payment-received"
def EthplorerAPI : String := "https://api.ethplorer.io"
def EthplorerAPIKey : String := "freekey"
/-- The format `"/getTxInfo/%s"` applied to its one argument. -/
def GetTxURL (id : String) : String := "/getTxInfo/" ++ id

structure PaymentAccount where
  Name : String
  TradeCurrencies : List String
  PaymentMethod : String
  ID : String
  Details : String
  SelectedTradeCurrency : String
deriving DecidableEq, Inhabited

structure OfferToCreate where
  FundUsingBisqWallet : Bool
  OfferID : String
  AccountID : String
  Direction : String
  PriceType : String
  MarketPair : String
  PercentageFromMarketPrice : Int
  FixedPrice : Int
  Amount : Int
  MinAmount : Int
  BuyerSecurityDeposit : Int
deriving DecidableEq, Inhabited

structure OfferDetail where
  Date : String
  MinAmount : Int
  SellerSecurityDeposit : Int
  IsPrivateOffer : Bool
  IsCurrencyForMakerFeeBtc : Bool
  MakerPaymentAccountID : String
  HashOfChallenge : String
  BuyerSecurityDeposit : Int
  OfferFeePaymentTxID : String
  UseAutoClose : Bool
  BlockHeightAtOfferCreation : Int
  UseMarketBasedPrice : Bool
  CounterCurrencyCode : String
  MakerFee : Int
  CountryCode : String
  PaymentMethodID : String
  Price : Int
  ProtocolVersion : Int
  ID : String
  MaxTradePeriod : Int
  State : String
  UseReOpenAfterAutoClose : Bool
  VersionNr : String
  UpperClosePrice : Int
  Direction : String
  OwnerNodeAddress : String
  AcceptedBankIds : List String
  MaxTradeLimit : Int
  Amount : Int
  AcceptedCountryCodes : List String
  MarketPriceMargin : GoFloat64
  BankID : String
  BaseCurrencyCode : String
  ArbitratorNodeAddresses : List String
  TxFee : Int
  CurrencyCode : String
  LowerClosePrice : Int
deriving DecidableEq, Inhabited

structure OfferToTake where
  PaymentAccountID : String
  Amount : Int
deriving DecidableEq, Inhabited

structure TradeDetails where
  BuyerPaymentAccount : PaymentAccount
  SellerPaymentAccount : PaymentAccount
  ID : String
  Offer : OfferDetail
  IsCurrencyForTakerFeeBtc : Bool
  TxFee : Int
  TakerFee : Int
  TakeOfferDate : Int
  TakerFeeTxID : String
  DepositTxID : String
  PayoutTxID : String
  TradeAmount : Int
  TradePrice : Int
  State : String
  DisputeState : String
  TradePeriodState : String
  ArbitratorBtcPubKey : List String
  ContractHash : List String
  MediatorNodeAddress : String
  TakerContractSignature : String
  MakerContractSignature : String
  ArbitratorNodeAddress : String
  TradingPeerNodeAddress : String
  TakerPaymentAccountID : String
  ErrorMessage : String
  CounterCurrencyTxID : String
deriving DecidableEq, Inhabited

structure TransactionLogs where
  Address : String
  Topics : String
  Data : String
deriving DecidableEq, Inhabited

structure TransactionOperations where
  Timestamp : Int
  TransactionHash : String
  TokenInfo : String
  Type_ : String
  Address : String
  From : String
  To : String
  Value : GoFloat64
deriving DecidableEq, Inhabited

structure TransactionInfo where
  Hash : String
  Timestamp : Int
  BlockNumber : Int
  Confirmations : Int
  Success : Bool
  From : String
  To : String
  Value : GoFloat64
  Input : String
  GasLimit : Int
  GasUsed : Int
  Logs : List TransactionLogs
  Operations : List TransactionOperations
deriving DecidableEq, Inhabited

/-! ## Data model of `server/handles.go` -/

structure UserOffer where
  AccountName : String
  Token : String
  Price : Int
  Amount : Int
  Direction : String
  EthereumWallet : String
deriving DecidableEq, Inhabited

structure MoneySentRequest where
  TransactionID : String
deriving DecidableEq, Inhabited

/-- The maps of `server.Service`.  The logger, the HTTP client and the mutex
are not part of the modelled state. -/
structure Service where
  buyOffers : GoMap UserOffer
  sellOffers : GoMap UserOffer
  accounts : GoMap PaymentAccount
  buyTrades : GoMap TradeDetails
  sellTrades : GoMap TradeDetails
  matchedBuyAccounts : GoMap String
  matchedSellAccounts : GoMap String
  ethereumWallets : GoMap String
  transactionIDs : GoMap String

def InitService : Service :=
  { buyOffers := GoMap.empty
    sellOffers := GoMap.empty
    accounts := GoMap.empty
    buyTrades := GoMap.empty
    sellTrades := GoMap.empty
    matchedBuyAccounts := GoMap.empty
    matchedSellAccounts := GoMap.empty
    ethereumWallets := GoMap.empty
    transactionIDs := GoMap.empty }

/-! ## The outside world -/

/-- What `json.Marshal` was given as the body of a request (`nil` for the
requests without a body). -/
inductive RequestBody where
  | nil
  | paymentAccount (account : PaymentAccount)
  | offerToCreate (offer : OfferToCreate)
  | offerToTake (offer : OfferToTake)
deriving DecidableEq, Inhabited

/-- An `http.Request` as the api functions build it. -/
structure HttpRequest where
  Method : String
  URL : String
  ContentType : String
  Body : RequestBody
deriving DecidableEq, Inhabited

/-- An `http.Response`: the status code and what `ioutil.ReadAll(resp.Body)`
returns. -/
structure HttpResponse where
  StatusCode : Int
  Body : Except String String

/-- The external collaborators of the code, over a world state `W`. -/
structure Env (W : Type) where
  /-- The error of `http.NewRequest(method, url, body)`, if any. -/
  newRequestError : String → String → Option String
  /-- The call `client.Do(req)`. -/
  clientDo : W → HttpRequest → Except String HttpResponse × W
  /-- The call `json.Unmarshal(body, &p)` for a `PaymentAccount`. -/
  unmarshalPaymentAccount : String → Except String PaymentAccount
  /-- The call `json.Unmarshal(body, &d)` for an `OfferDetail`. -/
  unmarshalOfferDetail : String → Except String OfferDetail
  /-- The call `json.Unmarshal(body, &d)` for a `TradeDetails`. -/
  unmarshalTradeDetails : String → Except String TradeDetails
  /-- The call `json.Unmarshal(body, &t)` for a `TransactionInfo`. -/
  unmarshalTransactionInfo : String → Except String TransactionInfo
  /-- The call `dec.Decode(&offer)` on a request body. -/
  decodeUserOffer : String → Except String UserOffer
  /-- The call `dec.Decode(&req)` on a request body. -/
  decodeMoneySentRequest : String → Except String MoneySentRequest

/-- An api function that was entered, with its argument.  The trade
argument of the two payment transitions is a pointer that may be nil. -/
inductive ApiCall where
  | registerPaymentAccounts (account : PaymentAccount)
  | publishOffer (offer : OfferToCreate)
  | takeOffer (offer : OfferToTake)
  | paymentStarted (trade : Option TradeDetails)
  | paymentReceived (trade : Option TradeDetails)
  | getTxInfo (transactionID : String)
deriving DecidableEq

/-- The world together with the two ghost logs, oldest entry first. -/
structure Net (W : Type) where
  world : W
  calls : List ApiCall
  sent : List HttpRequest

namespace Net

/-- Ghost step: an api function is entered. -/
def enter {W : Type} (n : Net W) (c : ApiCall) : Net W :=
  { n with calls := n.calls ++ [c] }

/-- The call `client.Do(req)`, logging the request. -/
def send {W : Type} (env : Env W) (n : Net W) (req : HttpRequest) :
    Except String HttpResponse × Net W :=
  let r := env.clientDo n.world req
  (r.1, { n with world := r.2, sent := n.sent ++ [req] })

end Net

/-- A Go call that either returns or panics. -/
inductive Outcome (α : Type) where
  | ret (a : α)
  | panic (msg : String)
deriving DecidableEq

/-- The text of the runtime panic on a nil pointer. -/
def nilDereference : String :=
  "runtime error: invalid memory address or nil pointer dereference"

/-! ## The api functions, `api/handles.go`

Each function enters (ghost log), builds its request, sends it, reads the
body, checks the status and decodes.  `json.Marshal` cannot fail on the
request types (strings, integers, booleans and string lists only), so that
error branch of the source is dead and is not represented. -/

def RegisterPaymentAccounts {W : Type} (env : Env W) (n : Net W) (account : PaymentAccount) :
    Except String PaymentAccount × Net W :=
  let n := n.enter (.registerPaymentAccounts account)
  let apiURL := BisqAPIURL ++ PaymentAccountsURL
  match env.newRequestError "POST" apiURL with
  | some err => (.error err, n)
  | none =>
    match Net.send env n ⟨"POST", apiURL, "application/json", .paymentAccount account⟩ with
    | (.error err, n) => (.error err, n)
    | (.ok resp, n) =>
      match resp.Body with
      | .error err => (.error err, n)
      | .ok body =>
        if resp.StatusCode ≠ 200 then
          (.error ("response failure, status = " ++ toString resp.StatusCode), n)
        else
          match env.unmarshalPaymentAccount body with
          | .error err => (.error err, n)
          | .ok p => (.ok p, n)

def PublishOffer {W : Type} (env : Env W) (n : Net W) (offer : OfferToCreate) :
    Except String OfferDetail × Net W :=
  let n := n.enter (.publishOffer offer)
  let apiURL := BisqAPIURL ++ OfferURL
  match env.newRequestError "POST" apiURL with
  | some err => (.error err, n)
  | none =>
    match Net.send env n ⟨"POST", apiURL, "application/json", .offerToCreate offer⟩ with
    | (.error err, n) => (.error err, n)
    | (.ok resp, n) =>
      match resp.Body with
      | .error err => (.error err, n)
      | .ok body =>
        if resp.StatusCode ≠ 200 then
          (.error ("response failure, status = " ++ toString resp.StatusCode), n)
        else
          match env.unmarshalOfferDetail body with
          | .error err => (.error err, n)
          | .ok d => (.ok d, n)

def TakeOffer {W : Type} (env : Env W) (n : Net W) (offer : OfferToTake) :
    Except String TradeDetails × Net W :=
  let n := n.enter (.takeOffer offer)
  let apiURL := BisqAPIURL ++ TakeOfferURL offer.PaymentAccountID
  match env.newRequestError "POST" apiURL with
  | some err => (.error err, n)
  | none =>
    match Net.send env n ⟨"POST", apiURL, "application/json", .offerToTake offer⟩ with
    | (.error err, n) => (.error err, n)
    | (.ok resp, n) =>
      match resp.Body with
      | .error err => (.error err, n)
      | .ok body =>
        if resp.StatusCode ≠ 200 then
          (.error ("response failure, status = " ++ toString resp.StatusCode), n)
        else
          match env.unmarshalTradeDetails body with
          | .error err => (.error err, n)
          | .ok d => (.ok d, n)

/-- The function `api.PaymentStarted`.  The trade is a pointer; reading
`trade.ID` through a nil pointer panics before any request is built. -/
def PaymentStarted {W : Type} (env : Env W) (n : Net W) (trade : Option TradeDetails) :
    Outcome (Option String) × Net W :=
  let n := n.enter (.paymentStarted trade)
  match trade with
  | none => (.panic nilDereference, n)
  | some trade =>
    let apiURL := BisqAPIURL ++ PaymentStartedURL trade.ID
    match env.newRequestError "POST" apiURL with
    | some err => (.ret (some err), n)
    | none =>
      match Net.send env n ⟨"POST", apiURL, "application/json", .nil⟩ with
      | (.error err, n) => (.ret (some err), n)
      | (.ok resp, n) =>
        match resp.Body with
        | .error err => (.ret (some err), n)
        | .ok _ =>
          if resp.StatusCode ≠ 200 then
            (.ret (some ("response failure, status = " ++ toString resp.StatusCode)), n)
          else
            (.ret none, n)

/-- The function `api.PaymentReceived`; the trade pointer is read as in
`PaymentStarted`. -/
def PaymentReceived {W : Type} (env : Env W) (n : Net W) (trade : Option TradeDetails) :
    Outcome (Option String) × Net W :=
  let n := n.enter (.paymentReceived trade)
  match trade with
  | none => (.panic nilDereference, n)
  | some trade =>
    let apiURL := BisqAPIURL ++ PaymentReceivedURL trade.ID
    match env.newRequestError "POST" apiURL with
    | some err => (.ret (some err), n)
    | none =>
      match Net.send env n ⟨"POST", apiURL, "application/json", .nil⟩ with
      | (.error err, n) => (.ret (some err), n)
      | (.ok resp, n) =>
        match resp.Body with
        | .error err => (.ret (some err), n)
        | .ok _ =>
          if resp.StatusCode ≠ 200 then
            (.ret (some ("response failure, status = " ++ toString resp.StatusCode)), n)
          else
            (.ret none, n)

def GetTxInfo {W : Type} (env : Env W) (n : Net W) (transactionID : String) :
    Except String TransactionInfo × Net W :=
  let n := n.enter (.getTxInfo transactionID)
  let apiURL := EthplorerAPI ++ GetTxURL transactionID
  match env.newRequestError "GET" apiURL with
  | some err => (.error err, n)
  | none =>
    match Net.send env n ⟨"GET", apiURL, "application/json", .nil⟩ with
    | (.error err, n) => (.error err, n)
    | (.ok resp, n) =>
      match resp.Body with
      | .error err => (.error err, n)
      | .ok body =>
        if resp.StatusCode ≠ 200 then
          (.error ("response failure, status = " ++ toString resp.StatusCode), n)
        else
          match env.unmarshalTransactionInfo body with
          | .error err => (.error err, n)
          | .ok t => (.ok t, n)

/-! ## The service, `server/utils.go` and `server/handles.go` -/

/-- The service maps together with the outside world. -/
structure Sys (W : Type) where
  s : Service
  net : Net W

/-- What a handler leaves on the wire: `handleSimpleResponse(w, status, msg)`,
or nothing when the handler panicked. -/
inductive Reply where
  | response (status : Int) (msg : String)
  | panic (msg : String)
deriving DecidableEq

def handleMatchedOffers {W : Type} (env : Env W) (st : Sys W) (buyOffer sellOffer : UserOffer) :
    Option String × Sys W :=
  let s := st.s
  let s := { s with
    matchedBuyAccounts := s.matchedBuyAccounts.set sellOffer.AccountName buyOffer.AccountName }
  let s := { s with
    matchedSellAccounts := s.matchedSellAccounts.set buyOffer.AccountName sellOffer.AccountName }
  let buyAccount : PaymentAccount :=
    { Name := buyOffer.AccountName
      TradeCurrencies := ["BTC", "ETH"]
      PaymentMethod := "BLOCK_CHAINS"
      ID := ""
      Details := buyOffer.EthereumWallet
      SelectedTradeCurrency := "ETH" }
  match RegisterPaymentAccounts env st.net buyAccount with
  | (.error err, net) => (some err, ⟨s, net⟩)
  | (.ok respBuyAcc, net) =>
    let s := { s with accounts := s.accounts.set respBuyAcc.Name respBuyAcc }
    let s := { s with ethereumWallets := s.ethereumWallets.set respBuyAcc.Name respBuyAcc.Details }
    let offerToCreate : OfferToCreate :=
      { FundUsingBisqWallet := true
        OfferID := ""
        AccountID := respBuyAcc.ID
        Direction := "BUY"
        PriceType := ""
        MarketPair := "btc_eth"
        PercentageFromMarketPrice := 0
        FixedPrice := buyOffer.Price
        Amount := buyOffer.Amount
        MinAmount := buyOffer.Amount
        BuyerSecurityDeposit := 1 }
    match PublishOffer env net offerToCreate with
    | (.error err, net) => (some err, ⟨s, net⟩)
    | (.ok _offerDetails, net) =>
      let sellAccount : PaymentAccount :=
        { Name := sellOffer.AccountName
          TradeCurrencies := ["BTC", "ETH"]
          PaymentMethod := "BLOCK_CHAINS"
          ID := ""
          Details := sellOffer.EthereumWallet
          SelectedTradeCurrency := "ETH" }
      match RegisterPaymentAccounts env net sellAccount with
      | (.error err, net) => (some err, ⟨s, net⟩)
      | (.ok respSellAcc, net) =>
        let s := { s with accounts := s.accounts.set respSellAcc.Name respSellAcc }
        let s := { s with
          ethereumWallets := s.ethereumWallets.set respSellAcc.Name respSellAcc.Details }
        let offerToTake : OfferToTake :=
          { PaymentAccountID := respSellAcc.ID
            Amount := offerToCreate.Amount }
        match TakeOffer env net offerToTake with
        | (.error err, net) => (some err, ⟨s, net⟩)
        | (.ok tradeDetails, net) =>
          let s := { s with buyTrades := s.buyTrades.set respBuyAcc.Name tradeDetails }
          let s := { s with sellTrades := s.sellTrades.set respSellAcc.Name tradeDetails }
          (none, ⟨s, net⟩)

/-- The test of the loop body of `matchOffers` on one entry of the scanned
book: `account` is the key, `savedOffer` the value. -/
def isMatch (offer : UserOffer) (account : String) (savedOffer : UserOffer) : Bool :=
  account != offer.AccountName &&
    (savedOffer.Token == offer.Token && savedOffer.Amount == offer.Amount &&
      savedOffer.Price == offer.Price)

/-- The book that `matchOffers` scans. -/
def scannedBook (s : Service) (offer : UserOffer) : GoMap UserOffer :=
  if offer.Direction = "BUY" then s.sellOffers else s.buyOffers

/-- The loop of `matchOffers`: the first entry, in the order of the visit,
that passes the test; the loop returns from inside its body there. -/
def firstMatch (offers : GoMap UserOffer) (offer : UserOffer) :
    Option (Sigma fun _ : String => UserOffer) :=
  offers.entries.find? fun e => isMatch offer e.1 e.2

def matchOffers {W : Type} (env : Env W) (st : Sys W) (offer : UserOffer) :
    (Bool × Option String) × Sys W :=
  let offers := scannedBook st.s offer
  match firstMatch offers offer with
  | some e =>
    let savedOffer := e.2
    let buyOffer := if offer.Direction = "BUY" then offer else savedOffer
    let sellOffer := if offer.Direction = "BUY" then savedOffer else offer
    match handleMatchedOffers env st buyOffer sellOffer with
    | (some err, st) => ((false, some err), st)
    | (none, st) => ((true, none), st)
  | none => ((false, none), st)

def checkTransaction {W : Type} (env : Env W) (st : Sys W)
    (transactionID buySide sellSide : String) : (Bool × Option String) × Sys W :=
  match GetTxInfo env st.net transactionID with
  | (.error err, net) => ((true, some err), ⟨st.s, net⟩)
  | (.ok transactionInfo, net) =>
    let st : Sys W := ⟨st.s, net⟩
    if !transactionInfo.Success then
      ((false, some "transaction did not complete successfully"), st)
    else
      let fromAddr := st.s.ethereumWallets.getStr buySide
      let toAddr := st.s.ethereumWallets.getStr sellSide
      if transactionInfo.From ≠ fromAddr then
        ((false, some "transaction sender address is incorrect"), st)
      else if transactionInfo.To ≠ toAddr then
        ((false, some "transaction receiver address is incorrect"), st)
      else
        ((true, none), st)

def handleSuccessfulTransaction {W : Type} (env : Env W) (st : Sys W)
    (trade : Option TradeDetails) : Outcome (Option String) × Sys W :=
  match PaymentStarted env st.net trade with
  | (.panic msg, net) => (.panic msg, ⟨st.s, net⟩)
  | (.ret (some err), net) => (.ret (some err), ⟨st.s, net⟩)
  | (.ret none, net) =>
    match PaymentReceived env net trade with
    | (.panic msg, net) => (.panic msg, ⟨st.s, net⟩)
    | (.ret (some err), net) => (.ret (some err), ⟨st.s, net⟩)
    | (.ret none, net) => (.ret none, ⟨st.s, net⟩)

/-- The handler of `/buy`; `body` is the request body. -/
def BuyHandle {W : Type} (env : Env W) (st : Sys W) (body : String) : Reply × Sys W :=
  match env.decodeUserOffer body with
  | .error _ => (.response 500 "json decoder failure.", st)
  | .ok offer =>
    match matchOffers env st offer with
    | ((_, some err), st) => (.response 500 err, st)
    | ((true, none), st) => (.response 200 "Your offer was matched successfully.", st)
    | ((false, none), st) =>
      let s := { st.s with buyOffers := st.s.buyOffers.set offer.AccountName offer }
      (.response 200 "Your offer was saved successfully.", ⟨s, st.net⟩)

/-- The handler of `/sell`; `body` is the request body. -/
def SellHandle {W : Type} (env : Env W) (st : Sys W) (body : String) : Reply × Sys W :=
  match env.decodeUserOffer body with
  | .error _ => (.response 500 "json decoder failure.", st)
  | .ok offer =>
    match matchOffers env st offer with
    | ((_, some err), st) => (.response 500 err, st)
    | ((true, none), st) => (.response 200 "Your offer was matched successfully.", st)
    | ((false, none), st) =>
      let s := { st.s with sellOffers := st.s.sellOffers.set offer.AccountName offer }
      (.response 200 "Your offer was saved successfully.", ⟨s, st.net⟩)

/-- The handler of `/check-offer`; `accountNames` is `r.URL.Query()["account"]`,
`none` when the parameter is absent. -/
def CheckOfferHandle {W : Type} (st : Sys W) (accountNames : Option (List String)) :
    Reply × Sys W :=
  match accountNames with
  | none => (.response 400 "'account' parameter is missing.", st)
  | some [] => (.response 400 "'account' parameter is missing.", st)
  | some (accountName :: _) =>
    let counterAccountName := st.s.matchedSellAccounts.getStr accountName
    let ethereumWallet := st.s.ethereumWallets.getStr counterAccountName
    (.response 200 ethereumWallet, st)

/-- The handler of a money-sent report; `accountNames` is
`r.URL.Query()["account"]` and `body` the request body. -/
def MoneySentHandle {W : Type} (env : Env W) (st : Sys W) (accountNames : Option (List String))
    (body : String) : Reply × Sys W :=
  match accountNames with
  | none => (.response 400 "'account' parameter is missing.", st)
  | some [] => (.response 400 "'account' parameter is missing.", st)
  | some (accountName :: _) =>
    let counterAccountName := st.s.matchedSellAccounts.getStr accountName
    match env.decodeMoneySentRequest body with
    | .error err => (.response 500 err, st)
    | .ok req =>
      match checkTransaction env st req.TransactionID accountName counterAccountName with
      | ((true, some err), st) => (.response 500 err, st)
      | ((false, some err), st) => (.response 400 err, st)
      | ((_, none), st) =>
        match handleSuccessfulTransaction env st (st.s.buyTrades.get? accountName) with
        | (.panic msg, st) => (.panic msg, st)
        | (.ret (some err), st) => (.response 500 err, st)
        | (.ret none, st) => (.response 200 "trade completed successfully", st)

/-! ## Vocabulary of the statements -/

/-- The matching predicate of the specification: the counter-offer `C` is
compatible with the incoming offer `O`. -/
def Compatible (O C : UserOffer) : Prop :=
  C.AccountName ≠ O.AccountName ∧ C.Token = O.Token ∧ C.Amount = O.Amount ∧ C.Price = O.Price

instance (O C : UserOffer) : Decidable (Compatible O C) := by
  unfold Compatible
  infer_instance

/-- Every entry of a book is stored under the `AccountName` of its offer.
Both handlers store an offer under `offer.AccountName`, so every book that
the handlers build has this property (`BuyHandle_keyed`, `SellHandle_keyed`). -/
def KeyedByName (m : GoMap UserOffer) : Prop :=
  ∀ e ∈ m.entries, e.1 = e.2.AccountName

instance (m : GoMap UserOffer) : Decidable (KeyedByName m) := by
  unfold KeyedByName
  infer_instance

/-- The result of `matchOffers` when its loop hands `buyOffer` and
`sellOffer` to `handleMatchedOffers`: matched exactly when that call returns
nil, with its error and its state. -/
def handedOver {W : Type} (env : Env W) (st : Sys W) (buyOffer sellOffer : UserOffer) :
    (Bool × Option String) × Sys W :=
  let r := handleMatchedOffers env st buyOffer sellOffer
  ((r.1.isNone, r.1), r.2)

/-- The account that `handleMatchedOffers` asks the gateway to register for
the submitter of an offer. -/
def registrationRequest (offer : UserOffer) : PaymentAccount :=
  { Name := offer.AccountName
    TradeCurrencies := ["BTC", "ETH"]
    PaymentMethod := "BLOCK_CHAINS"
    ID := ""
    Details := offer.EthereumWallet
    SelectedTradeCurrency := "ETH" }

/-- The offer that `handleMatchedOffers` publishes for the buyer, given the
account that the buyer's registration returned. -/
def publishRequest (respBuyAcc : PaymentAccount) (buyOffer : UserOffer) : OfferToCreate :=
  { FundUsingBisqWallet := true
    OfferID := ""
    AccountID := respBuyAcc.ID
    Direction := "BUY"
    PriceType := ""
    MarketPair := "btc_eth"
    PercentageFromMarketPrice := 0
    FixedPrice := buyOffer.Price
    Amount := buyOffer.Amount
    MinAmount := buyOffer.Amount
    BuyerSecurityDeposit := 1 }

/-- The take request of `handleMatchedOffers`, given the account that the
seller's registration returned. -/
def takeRequest (respSellAcc : PaymentAccount) (buyOffer : UserOffer) : OfferToTake :=
  { PaymentAccountID := respSellAcc.ID
    Amount := buyOffer.Amount }

/-- The two match bindings written at the start of `handleMatchedOffers`. -/
def recordMatch (s : Service) (buyOffer sellOffer : UserOffer) : Service :=
  { s with
    matchedBuyAccounts := s.matchedBuyAccounts.set sellOffer.AccountName buyOffer.AccountName
    matchedSellAccounts := s.matchedSellAccounts.set buyOffer.AccountName sellOffer.AccountName }

/-- The account and wallet entries written after a registration returned
`acc`. -/
def recordAccount (s : Service) (acc : PaymentAccount) : Service :=
  { s with
    accounts := s.accounts.set acc.Name acc
    ethereumWallets := s.ethereumWallets.set acc.Name acc.Details }

/-- The two trade entries written after `TakeOffer` returned `trade`. -/
def recordTrade (s : Service) (respBuyAcc respSellAcc : PaymentAccount) (trade : TradeDetails) :
    Service :=
  { s with
    buyTrades := s.buyTrades.set respBuyAcc.Name trade
    sellTrades := s.sellTrades.set respSellAcc.Name trade }

/-! ## A concrete gateway for the examples -/

def aliceBuy : UserOffer :=
  { AccountName := "alice", Token := "ETH", Price := 5000, Amount := 100,
    Direction := "BUY", EthereumWallet := "0xA" }

def bobSell : UserOffer :=
  { AccountName := "bob", Token := "ETH", Price := 5000, Amount := 100,
    Direction := "SELL", EthereumWallet := "0xB" }

def carolHold : UserOffer :=
  { AccountName := "carol", Token := "ETH", Price := 5000, Amount := 100,
    Direction := "HOLD", EthereumWallet := "0xC" }

def demoTrade : TradeDetails := { (default : TradeDetails) with ID := "trade-1" }

def demoOffer : OfferDetail := { (default : OfferDetail) with ID := "offer-1" }

/-- A gateway and ledger that answer every request with status 200.  A
registration is answered with the account that was sent, completed with the
ID `"acc-"` followed by the name.  The response bodies are tags that the
decoders below turn into records. -/
def demoEnv : Env Nat :=
  { newRequestError := fun _ _ => none
    clientDo := fun w req =>
      match req.Body with
      | .paymentAccount a => (.ok ⟨200, .ok (a.Name ++ "," ++ a.Details)⟩, w + 1)
      | .offerToCreate _ => (.ok ⟨200, .ok "offer"⟩, w + 1)
      | .offerToTake _ => (.ok ⟨200, .ok "trade"⟩, w + 1)
      | .nil => (.ok ⟨200, .ok req.URL⟩, w + 1)
    unmarshalPaymentAccount := fun body =>
      if body = "alice,0xA" then
        .ok { registrationRequest aliceBuy with ID := "acc-alice" }
      else if body = "bob,0xB" then
        .ok { registrationRequest bobSell with ID := "acc-bob" }
      else .error "unexpected end of JSON input"
    unmarshalOfferDetail := fun _ => .ok demoOffer
    unmarshalTradeDetails := fun _ => .ok demoTrade
    unmarshalTransactionInfo := fun body =>
      if body = "https://api.ethplorer.io/getTxInfo/tx-alice-to-bob" then
        .ok { (default : TransactionInfo) with Success := true, From := "0xA", To := "0xB" }
      else if body = "https://api.ethplorer.io/getTxInfo/tx-bob-to-alice" then
        .ok { (default : TransactionInfo) with Success := true, From := "0xB", To := "0xA" }
      else
        .ok { (default : TransactionInfo) with Success := false, From := "0xA", To := "0xB" }
    decodeUserOffer := fun body =>
      if body = "alice-buy" then .ok aliceBuy
      else if body = "bob-sell" then .ok bobSell
      else if body = "carol-hold" then .ok carolHold
      else .error "unexpected end of JSON input"
    decodeMoneySentRequest := fun body => .ok ⟨body⟩ }

/-- A gateway like `demoEnv` whose registration answers carry the account
name in the platform's own form, prefixed with `"bisq-"`. -/
def renamingEnv : Env Nat :=
  { demoEnv with
    unmarshalPaymentAccount := fun body =>
      match demoEnv.unmarshalPaymentAccount body with
      | .ok a => .ok { a with Name := "bisq-" ++ a.Name }
      | .error err => .error err }

/-- The service as `InitService` returns it, before any request. -/
def demoInit : Sys Nat := ⟨InitService, ⟨0, [], []⟩⟩

/-- After alice's BUY offer was submitted to the fresh service. -/
def afterAliceBuy : Sys Nat := (BuyHandle demoEnv demoInit "alice-buy").2

/-- After bob's SELL offer was submitted next. -/
def afterAliceBob : Sys Nat := (SellHandle demoEnv afterAliceBuy "bob-sell").2

def aliceBuyOld : UserOffer :=
  { AccountName := "alice", Token := "ETH", Price := 4000, Amount := 100,
    Direction := "BUY", EthereumWallet := "0xA" }

def frankBuy : UserOffer :=
  { AccountName := "frank", Token := "ETH", Price := 4500, Amount := 100,
    Direction := "BUY", EthereumWallet := "0xF" }

def daveSell : UserOffer :=
  { AccountName := "dave", Token := "ETH", Price := 6000, Amount := 100,
    Direction := "SELL", EthereumWallet := "0xD" }

/-- A gateway like `demoEnv` whose decoder also knows the offers of the
busy books. -/
def busyEnv : Env Nat :=
  { demoEnv with
    decodeUserOffer := fun body =>
      if body = "alice-buy-old" then .ok aliceBuyOld
      else if body = "frank-buy" then .ok frankBuy
      else if body = "dave-sell" then .ok daveSell
      else demoEnv.decodeUserOffer body }

/-- Books with resting offers on both sides, none compatible with another:
alice's earlier BUY offer and frank's BUY offer in the buy book, dave's SELL
offer in the sell book, each submitted to its own handler. -/
def busyBooks : Sys Nat :=
  (SellHandle busyEnv
    (BuyHandle busyEnv (BuyHandle busyEnv demoInit "alice-buy-old").2 "frank-buy").2
    "dave-sell").2

/-- A gateway like `demoEnv` that answers every take request with status
500. -/
def takeFailingEnv : Env Nat :=
  { demoEnv with
    clientDo := fun w req =>
      match req.Body with
      | .offerToTake _ => (.ok ⟨500, .ok "offer not available"⟩, w + 1)
      | _ => demoEnv.clientDo w req }

/-- After alice's BUY and bob's SELL offer were submitted to the fresh
service in front of `takeFailingEnv`: the match was found, both accounts were
registered, the take step failed. -/
def afterFailedTake : Sys Nat :=
  (SellHandle takeFailingEnv (BuyHandle takeFailingEnv demoInit "alice-buy").2 "bob-sell").2

/-! ## Two requests in flight

`BuyHandle` and `SellHandle` hold the mutex only for the statement that
stores the offer; `matchOffers` scans the opposite book before that, with
the mutex free.  A request is therefore modelled in two steps, the part up
to the return of `matchOffers` and the locked store, and two requests run
under a schedule that says whose step is next.  Every schedule is an
execution that the Go scheduler can produce; executions that interleave
inside a step are not represented. -/

section Lemmas

variable {W : Type}

theorem Net.send_eq {env : Env W} {n n2 : Net W} {req : HttpRequest}
    {r : Except String HttpResponse} (h : Net.send env n req = (r, n2)) :
    n2.calls = n.calls ∧ n2.sent = n.sent ++ [req] := by
  simp only [Net.send, Prod.mk.injEq] at h
  obtain ⟨-, rfl⟩ := h
  exact ⟨rfl, rfl⟩

theorem RegisterPaymentAccounts_calls (env : Env W) (n : Net W) (a : PaymentAccount) :
    (RegisterPaymentAccounts env n a).2.calls = n.calls ++ [.registerPaymentAccounts a] := by
  unfold RegisterPaymentAccounts
  simp only []
  repeat' split
  all_goals first
    | rfl
    | exact (Net.send_eq ‹Net.send env _ _ = _›).1

theorem PublishOffer_calls (env : Env W) (n : Net W) (o : OfferToCreate) :
    (PublishOffer env n o).2.calls = n.calls ++ [.publishOffer o] := by
  unfold PublishOffer
  simp only []
  repeat' split
  all_goals first
    | rfl
    | exact (Net.send_eq ‹Net.send env _ _ = _›).1

theorem TakeOffer_calls (env : Env W) (n : Net W) (o : OfferToTake) :
    (TakeOffer env n o).2.calls = n.calls ++ [.takeOffer o] := by
  unfold TakeOffer
  simp only []
  repeat' split
  all_goals first
    | rfl
    | exact (Net.send_eq ‹Net.send env _ _ = _›).1

theorem PaymentStarted_calls (env : Env W) (n : Net W) (t : Option TradeDetails) :
    (PaymentStarted env n t).2.calls = n.calls ++ [.paymentStarted t] := by
  unfold PaymentStarted
  simp only []
  repeat' split
  all_goals first
    | rfl
    | exact (Net.send_eq ‹Net.send env _ _ = _›).1

theorem PaymentReceived_calls (env : Env W) (n : Net W) (t : Option TradeDetails) :
    (PaymentReceived env n t).2.calls = n.calls ++ [.paymentReceived t] := by
  unfold PaymentReceived
  simp only []
  repeat' split
  all_goals first
    | rfl
    | exact (Net.send_eq ‹Net.send env _ _ = _›).1

theorem GetTxInfo_calls (env : Env W) (n : Net W) (id : String) :
    (GetTxInfo env n id).2.calls = n.calls ++ [.getTxInfo id] := by
  unfold GetTxInfo
  simp only []
  repeat' split
  all_goals first
    | rfl
    | exact (Net.send_eq ‹Net.send env _ _ = _›).1

theorem RegisterPaymentAccounts_calls_of_eq {env : Env W} {n n2 : Net W} {a : PaymentAccount}
    {r : Except String PaymentAccount} (h : RegisterPaymentAccounts env n a = (r, n2)) :
    n2.calls = n.calls ++ [.registerPaymentAccounts a] := by
  have := RegisterPaymentAccounts_calls env n a
  rwa [h] at this

theorem PublishOffer_calls_of_eq {env : Env W} {n n2 : Net W} {o : OfferToCreate}
    {r : Except String OfferDetail} (h : PublishOffer env n o = (r, n2)) :
    n2.calls = n.calls ++ [.publishOffer o] := by
  have := PublishOffer_calls env n o
  rwa [h] at this

theorem TakeOffer_calls_of_eq {env : Env W} {n n2 : Net W} {o : OfferToTake}
    {r : Except String TradeDetails} (h : TakeOffer env n o = (r, n2)) :
    n2.calls = n.calls ++ [.takeOffer o] := by
  have := TakeOffer_calls env n o
  rwa [h] at this

theorem PaymentStarted_calls_of_eq {env : Env W} {n n2 : Net W} {t : Option TradeDetails}
    {r : Outcome (Option String)} (h : PaymentStarted env n t = (r, n2)) :
    n2.calls = n.calls ++ [.paymentStarted t] := by
  have := PaymentStarted_calls env n t
  rwa [h] at this

theorem PaymentReceived_calls_of_eq {env : Env W} {n n2 : Net W} {t : Option TradeDetails}
    {r : Outcome (Option String)} (h : PaymentReceived env n t = (r, n2)) :
    n2.calls = n.calls ++ [.paymentReceived t] := by
  have := PaymentReceived_calls env n t
  rwa [h] at this

theorem GetTxInfo_calls_of_eq {env : Env W} {n n2 : Net W} {id : String}
    {r : Except String TransactionInfo} (h : GetTxInfo env n id = (r, n2)) :
    n2.calls = n.calls ++ [.getTxInfo id] := by
  have := GetTxInfo_calls env n id
  rwa [h] at this

end Lemmas

/-! ## Lemmas on the service functions -/

section ServiceLemmas

variable {W : Type}

theorem isMatch_iff_compatible (O C : UserOffer) (account : String)
    (hkey : account = C.AccountName) : isMatch O account C = true ↔ Compatible O C := by
  subst hkey
  simp [isMatch, Compatible, and_assoc]

theorem firstMatch_some_spec {book : GoMap UserOffer} {O : UserOffer}
    {e : Sigma fun _ : String => UserOffer} (hk : KeyedByName book)
    (h : firstMatch book O = some e) : e ∈ book.entries ∧ Compatible O e.2 := by
  unfold firstMatch at h
  have hmem := List.mem_of_find?_eq_some h
  have hp := List.find?_some h
  exact ⟨hmem, (isMatch_iff_compatible O e.2 e.1 (hk e hmem)).mp hp⟩

theorem firstMatch_none_spec {book : GoMap UserOffer} {O : UserOffer} (hk : KeyedByName book)
    (h : firstMatch book O = none) : ¬ ∃ e ∈ book.entries, Compatible O e.2 := by
  unfold firstMatch at h
  rintro ⟨e, hmem, hc⟩
  have hn := List.find?_eq_none.mp h e hmem
  exact hn ((isMatch_iff_compatible O e.2 e.1 (hk e hmem)).mpr hc)

theorem matchOffers_of_firstMatch_some (env : Env W) (st : Sys W) (O : UserOffer)
    {e : Sigma fun _ : String => UserOffer} (h : firstMatch (scannedBook st.s O) O = some e) :
    matchOffers env st O =
      handedOver env st (if O.Direction = "BUY" then O else e.2)
        (if O.Direction = "BUY" then e.2 else O) := by
  unfold matchOffers handedOver
  simp only [h]
  rcases handleMatchedOffers env st (if O.Direction = "BUY" then O else e.2)
    (if O.Direction = "BUY" then e.2 else O) with ⟨_ | err, st2⟩ <;> rfl

theorem matchOffers_of_firstMatch_none (env : Env W) (st : Sys W) (O : UserOffer)
    (h : firstMatch (scannedBook st.s O) O = none) :
    matchOffers env st O = ((false, none), st) := by
  unfold matchOffers
  simp only [h]

/-- The first gateway call of `handleMatchedOffers` is the registration of
the buyer, whatever the state. -/
theorem handleMatchedOffers_calls_head (env : Env W) (st : Sys W) (b s : UserOffer) :
    ∃ rest, (handleMatchedOffers env st b s).2.net.calls =
      st.net.calls ++ .registerPaymentAccounts (registrationRequest b) :: rest := by
  unfold handleMatchedOffers
  simp only []
  split
  · rename_i err net h
    exact ⟨[], RegisterPaymentAccounts_calls_of_eq h⟩
  · rename_i respBuyAcc net h
    have h1 := RegisterPaymentAccounts_calls_of_eq h
    split
    · rename_i err net2 h2
      have := PublishOffer_calls_of_eq h2
      exact ⟨_, by simp only [this, h1, List.append_assoc]; rfl⟩
    · rename_i od net2 h2
      have h2c := PublishOffer_calls_of_eq h2
      split
      · rename_i err net3 h3
        have := RegisterPaymentAccounts_calls_of_eq h3
        exact ⟨_, by simp only [this, h2c, h1, List.append_assoc]; rfl⟩
      · rename_i respSellAcc net3 h3
        have h3c := RegisterPaymentAccounts_calls_of_eq h3
        split
        · rename_i err net4 h4
          have := TakeOffer_calls_of_eq h4
          exact ⟨_, by simp only [this, h3c, h2c, h1, List.append_assoc]; rfl⟩
        · rename_i tr net4 h4
          have := TakeOffer_calls_of_eq h4
          exact ⟨_, by simp only [this, h3c, h2c, h1, List.append_assoc]; rfl⟩

theorem handleMatchedOffers_calls_ne (env : Env W) (st : Sys W) (b s : UserOffer) :
    (handleMatchedOffers env st b s).2.net.calls ≠ st.net.calls := by
  obtain ⟨rest, h⟩ := handleMatchedOffers_calls_head env st b s
  rw [h]
  intro hc
  have := congrArg List.length hc
  simp at this

/-- The offer books are not written by `handleMatchedOffers`. -/
theorem handleMatchedOffers_books (env : Env W) (st : Sys W) (b s : UserOffer) :
    (handleMatchedOffers env st b s).2.s.buyOffers = st.s.buyOffers ∧
      (handleMatchedOffers env st b s).2.s.sellOffers = st.s.sellOffers := by
  unfold handleMatchedOffers
  simp only []
  repeat' split
  all_goals exact ⟨rfl, rfl⟩

theorem BuyHandle_of_firstMatch_none (env : Env W) (st : Sys W) (body : String) (O : UserOffer)
    (hdec : env.decodeUserOffer body = .ok O)
    (h : firstMatch (scannedBook st.s O) O = none) :
    BuyHandle env st body =
      (.response 200 "Your offer was saved successfully.",
        ⟨{ st.s with buyOffers := st.s.buyOffers.set O.AccountName O }, st.net⟩) := by
  unfold BuyHandle
  simp only [hdec, matchOffers_of_firstMatch_none env st O h]

theorem SellHandle_of_firstMatch_none (env : Env W) (st : Sys W) (body : String) (O : UserOffer)
    (hdec : env.decodeUserOffer body = .ok O)
    (h : firstMatch (scannedBook st.s O) O = none) :
    SellHandle env st body =
      (.response 200 "Your offer was saved successfully.",
        ⟨{ st.s with sellOffers := st.s.sellOffers.set O.AccountName O }, st.net⟩) := by
  unfold SellHandle
  simp only [hdec, matchOffers_of_firstMatch_none env st O h]

theorem firstMatch_none_of_incompatible {book : GoMap UserOffer} {O : UserOffer}
    (hk : KeyedByName book) (hno : ∀ e ∈ book.entries, ¬ Compatible O e.2) :
    firstMatch book O = none := by
  unfold firstMatch
  rw [List.find?_eq_none]
  intro e hmem hm
  exact hno e hmem ((isMatch_iff_compatible O e.2 e.1 (hk e hmem)).mp hm)

theorem GoMap.get?_set_self {V : Type} (m : GoMap V) (k : String) (v : V) :
    (m.set k v).get? k = some v := by
  simp [GoMap.get?, GoMap.set]

theorem GoMap.get?_set_ne {V : Type} (m : GoMap V) (k k2 : String) (v : V) (h : k2 ≠ k) :
    (m.set k v).get? k2 = m.get? k2 := by
  simp [GoMap.get?, GoMap.set, AList.lookup_insert_ne h]

theorem GoMap.entry_eq_of_get? {V : Type} (m : GoMap V) (k : String) (v : V)
    (h : m.get? k = some v) (e : Sigma fun _ : String => V) (he : e ∈ m.entries)
    (hk : e.1 = k) : e.2 = v := by
  obtain ⟨a, b⟩ := e
  simp only at hk
  subst hk
  have : b ∈ AList.lookup a m := AList.mem_lookup_iff.mpr he
  rw [GoMap.get?] at h
  rw [h] at this
  simpa using this.symm

theorem KeyedByName_set (m : GoMap UserOffer) (O : UserOffer) (hk : KeyedByName m) :
    KeyedByName (m.set O.AccountName O) := by
  intro e he
  simp only [GoMap.set, AList.insert_entries, List.mem_cons] at he
  rcases he with rfl | he
  · rfl
  · exact hk e ((List.kerase_sublist _ _).subset he)

/-- The handler of `/buy` keeps both books keyed by account name. -/
theorem BuyHandle_keyed (env : Env W) (st : Sys W) (body : String)
    (hb : KeyedByName st.s.buyOffers) (hs : KeyedByName st.s.sellOffers) :
    KeyedByName (BuyHandle env st body).2.s.buyOffers ∧
      KeyedByName (BuyHandle env st body).2.s.sellOffers := by
  unfold BuyHandle
  cases hdec : env.decodeUserOffer body with
  | error _ => exact ⟨hb, hs⟩
  | ok O =>
    simp only []
    cases hfm : firstMatch (scannedBook st.s O) O with
    | none =>
      rw [matchOffers_of_firstMatch_none env st O hfm]
      exact ⟨KeyedByName_set _ O hb, hs⟩
    | some e =>
      rw [matchOffers_of_firstMatch_some env st O hfm]
      unfold handedOver
      have hbooks := handleMatchedOffers_books env st (if O.Direction = "BUY" then O else e.2)
        (if O.Direction = "BUY" then e.2 else O)
      rcases hr : handleMatchedOffers env st (if O.Direction = "BUY" then O else e.2)
        (if O.Direction = "BUY" then e.2 else O) with ⟨_ | err, st2⟩
      · rw [hr] at hbooks
        simp only [Option.isNone_none]
        exact ⟨hbooks.1 ▸ hb, hbooks.2 ▸ hs⟩
      · rw [hr] at hbooks
        simp only []
        exact ⟨hbooks.1 ▸ hb, hbooks.2 ▸ hs⟩

/-- The handler of `/sell` keeps both books keyed by account name. -/
theorem SellHandle_keyed (env : Env W) (st : Sys W) (body : String)
    (hb : KeyedByName st.s.buyOffers) (hs : KeyedByName st.s.sellOffers) :
    KeyedByName (SellHandle env st body).2.s.buyOffers ∧
      KeyedByName (SellHandle env st body).2.s.sellOffers := by
  unfold SellHandle
  cases hdec : env.decodeUserOffer body with
  | error _ => exact ⟨hb, hs⟩
  | ok O =>
    simp only []
    cases hfm : firstMatch (scannedBook st.s O) O with
    | none =>
      rw [matchOffers_of_firstMatch_none env st O hfm]
      exact ⟨hb, KeyedByName_set _ O hs⟩
    | some e =>
      rw [matchOffers_of_firstMatch_some env st O hfm]
      unfold handedOver
      have hbooks := handleMatchedOffers_books env st (if O.Direction = "BUY" then O else e.2)
        (if O.Direction = "BUY" then e.2 else O)
      rcases hr : handleMatchedOffers env st (if O.Direction = "BUY" then O else e.2)
        (if O.Direction = "BUY" then e.2 else O) with ⟨_ | err, st2⟩
      · rw [hr] at hbooks
        simp only [Option.isNone_none]
        exact ⟨hbooks.1 ▸ hb, hbooks.2 ▸ hs⟩
      · rw [hr] at hbooks
        simp only []
        exact ⟨hbooks.1 ▸ hb, hbooks.2 ▸ hs⟩

/-- The books of the fresh service are keyed by account name. -/
theorem InitService_keyed : KeyedByName InitService.buyOffers ∧ KeyedByName InitService.sellOffers :=
  ⟨by decide, by decide⟩

theorem PaymentStarted_sent_of_ok {env : Env W} {n n2 : Net W} {t : TradeDetails}
    (h : PaymentStarted env n (some t) = (.ret none, n2)) :
    n2.sent = n.sent ++
      [⟨"POST", BisqAPIURL ++ PaymentStartedURL t.ID, "application/json", .nil⟩] := by
  unfold PaymentStarted at h
  simp only [] at h
  repeat' split at h
  all_goals first
    | (injection h with h1 h2
       injection h1 with h1
       cases h1
       done)
    | (injection h with h1 h2
       subst h2
       have hs := Net.send_eq ‹Net.send env _ _ = _›
       exact hs.2)

theorem PaymentReceived_sent_of_ok {env : Env W} {n n2 : Net W} {t : TradeDetails}
    (h : PaymentReceived env n (some t) = (.ret none, n2)) :
    n2.sent = n.sent ++
      [⟨"POST", BisqAPIURL ++ PaymentReceivedURL t.ID, "application/json", .nil⟩] := by
  unfold PaymentReceived at h
  simp only [] at h
  repeat' split at h
  all_goals first
    | (injection h with h1 h2
       injection h1 with h1
       cases h1
       done)
    | (injection h with h1 h2
       subst h2
       have hs := Net.send_eq ‹Net.send env _ _ = _›
       exact hs.2)

theorem checkTransaction_of_ok (env : Env W) (st : Sys W) (id buySide sellSide : String)
    {tx : TransactionInfo} {n1 : Net W} (hget : GetTxInfo env st.net id = (.ok tx, n1)) :
    checkTransaction env st id buySide sellSide =
      if !tx.Success then
        ((false, some "transaction did not complete successfully"), ⟨st.s, n1⟩)
      else if tx.From ≠ st.s.ethereumWallets.getStr buySide then
        ((false, some "transaction sender address is incorrect"), ⟨st.s, n1⟩)
      else if tx.To ≠ st.s.ethereumWallets.getStr sellSide then
        ((false, some "transaction receiver address is incorrect"), ⟨st.s, n1⟩)
      else ((true, none), ⟨st.s, n1⟩) := by
  unfold checkTransaction
  simp only [hget]

theorem MoneySentHandle_of_rejected (env : Env W) (st st2 : Sys W) (payer : String)
    (rest : List String) (body msg : String) {req : MoneySentRequest}
    (hdec : env.decodeMoneySentRequest body = .ok req)
    (h : checkTransaction env st req.TransactionID payer
      (st.s.matchedSellAccounts.getStr payer) = ((false, some msg), st2)) :
    MoneySentHandle env st (some (payer :: rest)) body = (.response 400 msg, st2) := by
  unfold MoneySentHandle
  simp only [hdec, h]

/-- The control flow of `handleMatchedOffers` over the vocabulary of the
statements. -/
theorem handleMatchedOffers_eq (env : Env W) (st : Sys W) (b s : UserOffer) :
    handleMatchedOffers env st b s =
      match RegisterPaymentAccounts env st.net (registrationRequest b) with
      | (.error err, n1) => (some err, ⟨recordMatch st.s b s, n1⟩)
      | (.ok respBuy, n1) =>
        match PublishOffer env n1 (publishRequest respBuy b) with
        | (.error err, n2) => (some err, ⟨recordAccount (recordMatch st.s b s) respBuy, n2⟩)
        | (.ok _, n2) =>
          match RegisterPaymentAccounts env n2 (registrationRequest s) with
          | (.error err, n3) => (some err, ⟨recordAccount (recordMatch st.s b s) respBuy, n3⟩)
          | (.ok respSell, n3) =>
            match TakeOffer env n3 (takeRequest respSell b) with
            | (.error err, n4) =>
              (some err,
                ⟨recordAccount (recordAccount (recordMatch st.s b s) respBuy) respSell, n4⟩)
            | (.ok trade, n4) =>
              (none,
                ⟨recordTrade (recordAccount (recordAccount (recordMatch st.s b s) respBuy)
                  respSell) respBuy respSell trade, n4⟩) := by
  rfl

theorem GoMap.getStr_set_self (m : GoMap String) (k v : String) :
    (m.set k v).getStr k = v := by
  simp [GoMap.getStr, GoMap.set]

theorem GoMap.getStr_set_ne (m : GoMap String) (k k2 v : String) (h : k2 ≠ k) :
    (m.set k v).getStr k2 = m.getStr k2 := by
  simp [GoMap.getStr, GoMap.set, AList.lookup_insert_ne h]

theorem GoMap.getStr_of_get?_none (m : GoMap String) (k : String) (h : m.get? k = none) :
    m.getStr k = "" := by
  unfold GoMap.get? at h
  simp [GoMap.getStr, h]

/-- The only entry of `matchedSellAccounts` that `handleMatchedOffers`
writes is the buyer's. -/
theorem handleMatchedOffers_matchedSellAccounts (env : Env W) (st : Sys W) (b s : UserOffer) :
    (handleMatchedOffers env st b s).2.s.matchedSellAccounts =
      st.s.matchedSellAccounts.set b.AccountName s.AccountName := by
  unfold handleMatchedOffers
  simp only []
  repeat' split
  all_goals rfl

/-- Once both registrations succeeded, the wallets on record are those of
the two answers, the seller's written last. -/
theorem handleMatchedOffers_wallets (env : Env W) (st : Sys W) (b s : UserOffer)
    {respBuy respSell : PaymentAccount} {od : OfferDetail} {n1 n2 n3 : Net W}
    (h1 : RegisterPaymentAccounts env st.net (registrationRequest b) = (.ok respBuy, n1))
    (h2 : PublishOffer env n1 (publishRequest respBuy b) = (.ok od, n2))
    (h3 : RegisterPaymentAccounts env n2 (registrationRequest s) = (.ok respSell, n3)) :
    (handleMatchedOffers env st b s).2.s.ethereumWallets =
      (st.s.ethereumWallets.set respBuy.Name respBuy.Details).set respSell.Name
        respSell.Details := by
  rw [handleMatchedOffers_eq, h1]
  simp only [h2, h3]
  obtain ⟨r4, n4, h4⟩ : ∃ r4 n4,
      TakeOffer env n3 (takeRequest respSell b) = (r4, n4) := ⟨_, _, rfl⟩
  cases r4 with
  | error err => simp only [h4]; rfl
  | ok trade => simp only [h4]; rfl

theorem PaymentStarted_some_returns (env : Env W) (n : Net W) (t : TradeDetails) :
    ∃ e, (PaymentStarted env n (some t)).1 = .ret e := by
  unfold PaymentStarted
  simp only []
  repeat' split
  all_goals exact ⟨_, rfl⟩

theorem PaymentReceived_some_returns (env : Env W) (n : Net W) (t : TradeDetails) :
    ∃ e, (PaymentReceived env n (some t)).1 = .ret e := by
  unfold PaymentReceived
  simp only []
  repeat' split
  all_goals exact ⟨_, rfl⟩

/-- The only request that `PaymentStarted` can send for a trade is the POST
to the payment-started path of the trade's ID. -/
theorem PaymentStarted_sent_cases (env : Env W) (n : Net W) (t : TradeDetails) :
    (PaymentStarted env n (some t)).2.sent = n.sent ∨
      (PaymentStarted env n (some t)).2.sent = n.sent ++
        [⟨"POST", BisqAPIURL ++ PaymentStartedURL t.ID, "application/json", .nil⟩] := by
  unfold PaymentStarted
  simp only []
  repeat' split
  all_goals first
    | exact Or.inl rfl
    | (have hs := Net.send_eq ‹Net.send env _ _ = _›
       exact Or.inr hs.2)

/-- The only request that `PaymentReceived` can send for a trade is the
POST to the payment-received path of the trade's ID. -/
theorem PaymentReceived_sent_cases (env : Env W) (n : Net W) (t : TradeDetails) :
    (PaymentReceived env n (some t)).2.sent = n.sent ∨
      (PaymentReceived env n (some t)).2.sent = n.sent ++
        [⟨"POST", BisqAPIURL ++ PaymentReceivedURL t.ID, "application/json", .nil⟩] := by
  unfold PaymentReceived
  simp only []
  repeat' split
  all_goals first
    | exact Or.inl rfl
    | (have hs := Net.send_eq ‹Net.send env _ _ = _›
       exact Or.inr hs.2)

end ServiceLemmas

/-! ## The claims -/

section Claims

variable {W : Type}

/-- C1. For an incoming BUY offer the scanned book is the sell book, for an
incoming SELL offer (and for every other direction, which the code treats
as SELL) the buy book.  On books keyed by account name,
`matchOffers` hands a pair to `handleMatchedOffers` if and only if the
scanned book holds an offer compatible with the incoming one (other
submitter, same token, amount and price); the offer it hands over is such an
offer of that book, the BUY-side offer goes first (as `buyOffer`) and the
SELL-side offer second (as `sellOffer`); with no compatible offer it returns
`(false, nil)` and touches nothing.  A hand-over is visible in the log of
gateway calls, which grows exactly in that case. -/
theorem matchOffers_selects_iff_compatible (env : Env W) (st : Sys W) (O : UserOffer)
    (hk : KeyedByName (scannedBook st.s O)) :
    (O.Direction = "BUY" →
      ((∃ e ∈ st.s.sellOffers.entries, Compatible O e.2) →
        ∃ e ∈ st.s.sellOffers.entries, Compatible O e.2 ∧
          matchOffers env st O = handedOver env st O e.2) ∧
      ((¬ ∃ e ∈ st.s.sellOffers.entries, Compatible O e.2) →
        matchOffers env st O = ((false, none), st)) ∧
      ((∃ e ∈ st.s.sellOffers.entries, Compatible O e.2) ↔
        (matchOffers env st O).2.net.calls ≠ st.net.calls)) ∧
    (O.Direction ≠ "BUY" →
      ((∃ e ∈ st.s.buyOffers.entries, Compatible O e.2) →
        ∃ e ∈ st.s.buyOffers.entries, Compatible O e.2 ∧
          matchOffers env st O = handedOver env st e.2 O) ∧
      ((¬ ∃ e ∈ st.s.buyOffers.entries, Compatible O e.2) →
        matchOffers env st O = ((false, none), st)) ∧
      ((∃ e ∈ st.s.buyOffers.entries, Compatible O e.2) ↔
        (matchOffers env st O).2.net.calls ≠ st.net.calls)) := by
  have key : ∀ book : GoMap UserOffer, scannedBook st.s O = book →
      ((∃ e ∈ book.entries, Compatible O e.2) →
        ∃ e ∈ book.entries, Compatible O e.2 ∧
          matchOffers env st O =
            handedOver env st (if O.Direction = "BUY" then O else e.2)
              (if O.Direction = "BUY" then e.2 else O)) ∧
      ((¬ ∃ e ∈ book.entries, Compatible O e.2) →
        matchOffers env st O = ((false, none), st)) ∧
      ((∃ e ∈ book.entries, Compatible O e.2) ↔
        (matchOffers env st O).2.net.calls ≠ st.net.calls) := by
    intro book hb
    rw [hb] at hk
    cases hfm : firstMatch book O with
    | none =>
      have hno := firstMatch_none_spec hk hfm
      have hres := matchOffers_of_firstMatch_none env st O (hb ▸ hfm)
      refine ⟨fun h => absurd h hno, fun _ => hres, ?_⟩
      constructor
      · intro h
        exact absurd h hno
      · intro h
        rw [hres] at h
        exact absurd rfl h
    | some e =>
      have hsp := firstMatch_some_spec hk hfm
      have hres := matchOffers_of_firstMatch_some env st O (hb ▸ hfm)
      refine ⟨fun _ => ⟨e, hsp.1, hsp.2, hres⟩, fun h => absurd ⟨e, hsp.1, hsp.2⟩ h, ?_⟩
      constructor
      · intro _
        rw [hres]
        exact handleMatchedOffers_calls_ne env st _ _
      · intro _
        exact ⟨e, hsp.1, hsp.2⟩
  constructor
  · intro hd
    have := key st.s.sellOffers (by simp [scannedBook, hd])
    simpa [hd] using this
  · intro hnb
    have := key st.s.buyOffers (by simp [scannedBook, hnb])
    simpa [hnb] using this

/-- C1, at bob's SELL offer arriving while alice's BUY offer rests in the
buy book. -/
theorem matchOffers_selects_iff_compatible_witness :
    KeyedByName (scannedBook afterAliceBuy.s bobSell) ∧
      (matchOffers demoEnv afterAliceBuy bobSell).2.net.calls ≠ afterAliceBuy.net.calls :=
  ⟨by decide,
    ((matchOffers_selects_iff_compatible demoEnv afterAliceBuy bobSell (by decide)).2
      (by decide)).2.2.mp ⟨⟨"alice", aliceBuy⟩, by decide, by decide⟩⟩

/-- C3 as stated fails.  Dave's SELL offer is posted to `/buy` while
alice's BUY offer, which differs from it in price, rests in the buy book.
It finds no compatible counter-offer and is reported as saved, but it is
stored in the buy book, the book of the handler, and the sell book, the
book of its own direction, has no entry for dave. -/
theorem stored_in_own_direction_counterexample :
    daveSell.Direction = "SELL" ∧
      afterAliceBuy.s.buyOffers.get? "alice" = some aliceBuy ∧
      (∀ e ∈ afterAliceBuy.s.buyOffers.entries, ¬ Compatible daveSell e.2) ∧
      (BuyHandle busyEnv afterAliceBuy "dave-sell").1 =
        .response 200 "Your offer was saved successfully." ∧
      (BuyHandle busyEnv afterAliceBuy "dave-sell").2.s.buyOffers.get? "dave" = some daveSell ∧
      (BuyHandle busyEnv afterAliceBuy "dave-sell").2.s.sellOffers.get? "dave" = none := by
  decide

/-- C3, amended.  The book that receives an unmatched offer is the book of
the handler, not of the offer's direction.  `matchOffers` scans the sell
book for an offer of direction BUY and the buy book for any other.  When
the scanned book holds no compatible offer, `BuyHandle` reports the offer as
saved and stores it in the buy book, `SellHandle` in the sell book:
afterwards that book maps the submitter to exactly this offer, no other
entry of that book has the submitter's key, every other key of that book
reads as before, and the other book, the other maps and the outside world
are unchanged.  For a BUY offer at `BuyHandle` and a SELL offer at
`SellHandle` the scanned book is the opposite book and the storing book is
the book of the offer's own direction. -/
theorem unmatched_offer_is_stored_by_handler (env : Env W) (st : Sys W) (body : String)
    (O : UserOffer) (hdec : env.decodeUserOffer body = .ok O)
    (hk : KeyedByName (scannedBook st.s O))
    (hno : ∀ e ∈ (scannedBook st.s O).entries, ¬ Compatible O e.2) :
    (O.Direction = "BUY" → scannedBook st.s O = st.s.sellOffers) ∧
    (O.Direction ≠ "BUY" → scannedBook st.s O = st.s.buyOffers) ∧
    (BuyHandle env st body =
        (.response 200 "Your offer was saved successfully.",
          ⟨{ st.s with buyOffers := st.s.buyOffers.set O.AccountName O }, st.net⟩) ∧
      (BuyHandle env st body).2.s.buyOffers.get? O.AccountName = some O ∧
      (∀ e ∈ (BuyHandle env st body).2.s.buyOffers.entries, e.1 = O.AccountName → e.2 = O) ∧
      (∀ k, k ≠ O.AccountName →
        (BuyHandle env st body).2.s.buyOffers.get? k = st.s.buyOffers.get? k) ∧
      (BuyHandle env st body).2.s.sellOffers = st.s.sellOffers) ∧
    (SellHandle env st body =
        (.response 200 "Your offer was saved successfully.",
          ⟨{ st.s with sellOffers := st.s.sellOffers.set O.AccountName O }, st.net⟩) ∧
      (SellHandle env st body).2.s.sellOffers.get? O.AccountName = some O ∧
      (∀ e ∈ (SellHandle env st body).2.s.sellOffers.entries, e.1 = O.AccountName → e.2 = O) ∧
      (∀ k, k ≠ O.AccountName →
        (SellHandle env st body).2.s.sellOffers.get? k = st.s.sellOffers.get? k) ∧
      (SellHandle env st body).2.s.buyOffers = st.s.buyOffers) := by
  have hfm : firstMatch (scannedBook st.s O) O = none :=
    firstMatch_none_of_incompatible hk hno
  refine ⟨fun hd => by simp only [scannedBook, hd, if_true],
    fun hd => by simp only [scannedBook, hd, if_false], ?_, ?_⟩
  · rw [BuyHandle_of_firstMatch_none env st body O hdec hfm]
    refine ⟨rfl, GoMap.get?_set_self _ _ _, ?_, ?_, rfl⟩
    · intro e he hkey
      exact GoMap.entry_eq_of_get? _ _ _ (GoMap.get?_set_self _ _ _) e he hkey
    · intro k hne
      exact GoMap.get?_set_ne _ _ _ _ hne
  · rw [SellHandle_of_firstMatch_none env st body O hdec hfm]
    refine ⟨rfl, GoMap.get?_set_self _ _ _, ?_, ?_, rfl⟩
    · intro e he hkey
      exact GoMap.entry_eq_of_get? _ _ _ (GoMap.get?_set_self _ _ _) e he hkey
    · intro k hne
      exact GoMap.get?_set_ne _ _ _ _ hne

/-- C3 amended, at alice's new BUY offer arriving at `/buy` while her
earlier BUY offer and frank's rest in the buy book and dave's SELL offer,
which differs from hers in price, rests in the sell book: her new offer
replaces her earlier one, frank's and dave's entries stay. -/
theorem unmatched_offer_is_stored_by_handler_witness :
    busyEnv.decodeUserOffer "alice-buy" = .ok aliceBuy ∧
      busyBooks.s.sellOffers.get? "dave" = some daveSell ∧
      busyBooks.s.buyOffers.get? "alice" = some aliceBuyOld ∧
      busyBooks.s.buyOffers.get? "frank" = some frankBuy ∧
      KeyedByName (scannedBook busyBooks.s aliceBuy) ∧
      (∀ e ∈ (scannedBook busyBooks.s aliceBuy).entries, ¬ Compatible aliceBuy e.2) ∧
      (BuyHandle busyEnv busyBooks "alice-buy").2.s.buyOffers.get? "alice" = some aliceBuy ∧
      (BuyHandle busyEnv busyBooks "alice-buy").2.s.buyOffers.get? "frank" = some frankBuy ∧
      (BuyHandle busyEnv busyBooks "alice-buy").2.s.sellOffers = busyBooks.s.sellOffers :=
  have h := (unmatched_offer_is_stored_by_handler busyEnv busyBooks "alice-buy" aliceBuy rfl
    (by decide) (by decide)).2.2.1
  ⟨rfl, by decide, by decide, by decide, by decide, by decide, h.2.1,
    (h.2.2.2.1 "frank" (by decide)).trans (by decide), h.2.2.2.2⟩

/-- C4 as stated fails: no handler validates the direction.  Carol's offer
with direction `"HOLD"` is reported as saved by `SellHandle` and is stored
in the sell book; and when alice's compatible BUY offer rests in the buy
book, the same offer makes `SellHandle` scan that book and call the
gateway three times before the third call fails. -/
theorem direction_validated_counterexample :
    carolHold.Direction ≠ "BUY" ∧ carolHold.Direction ≠ "SELL" ∧
      (SellHandle demoEnv demoInit "carol-hold").1 =
        .response 200 "Your offer was saved successfully." ∧
      (SellHandle demoEnv demoInit "carol-hold").2.s.sellOffers.get? "carol" = some carolHold ∧
      (SellHandle demoEnv afterAliceBuy "carol-hold").2.net.calls =
        [.registerPaymentAccounts (registrationRequest aliceBuy),
          .publishOffer (publishRequest { registrationRequest aliceBuy with ID := "acc-alice" }
            aliceBuy),
          .registerPaymentAccounts (registrationRequest carolHold)] := by
  decide

/-- C4, amended.  An offer whose direction is not `"BUY"` is never rejected
for its direction: `matchOffers` treats it exactly as the same offer with
direction `"SELL"`, scanning the buy book; and when that book holds no
compatible offer, the handler that received it stores it in its own book
(`BuyHandle` in the buy book, `SellHandle` in the sell book) and reports it
as saved, without a gateway call. -/
theorem unknown_direction_is_processed (env : Env W) (st : Sys W) (body : String)
    (O : UserOffer) (hdec : env.decodeUserOffer body = .ok O) (hdir : O.Direction ≠ "BUY") :
    matchOffers env st O = matchOffers env st { O with Direction := "SELL" } ∧
    (KeyedByName st.s.buyOffers → (∀ e ∈ st.s.buyOffers.entries, ¬ Compatible O e.2) →
      BuyHandle env st body =
        (.response 200 "Your offer was saved successfully.",
          ⟨{ st.s with buyOffers := st.s.buyOffers.set O.AccountName O }, st.net⟩) ∧
      SellHandle env st body =
        (.response 200 "Your offer was saved successfully.",
          ⟨{ st.s with sellOffers := st.s.sellOffers.set O.AccountName O }, st.net⟩)) := by
  constructor
  · have hs : ({ O with Direction := "SELL" } : UserOffer).Direction ≠ "BUY" := by
      show "SELL" ≠ "BUY"
      decide
    unfold matchOffers scannedBook
    simp only [hdir, hs, if_false]
    rfl
  · intro hk hno
    have hfm : firstMatch (scannedBook st.s O) O = none := by
      simp only [scannedBook, hdir, if_false]
      exact firstMatch_none_of_incompatible hk hno
    exact ⟨BuyHandle_of_firstMatch_none env st body O hdec hfm,
      SellHandle_of_firstMatch_none env st body O hdec hfm⟩

/-- C4 amended, at carol's `"HOLD"` offer arriving at the fresh service. -/
theorem unknown_direction_is_processed_witness :
    demoEnv.decodeUserOffer "carol-hold" = .ok carolHold ∧ carolHold.Direction ≠ "BUY" ∧
      matchOffers demoEnv demoInit carolHold =
        matchOffers demoEnv demoInit { carolHold with Direction := "SELL" } :=
  ⟨rfl, by decide,
    (unknown_direction_is_processed demoEnv demoInit "carol-hold" carolHold rfl (by decide)).1⟩

/-- C5.  When the ledger lookup succeeds and the transaction has
`success = false`, `checkTransaction` returns not-ok with the error
"transaction did not complete successfully" for every pair of sides, so
whatever the addresses of the transaction and the recorded wallets are;
`MoneySentHandle` answers 400 with that text, the service maps are
unchanged, and the only gateway or ledger call made is the lookup itself:
neither payment transition is invoked. -/
theorem failed_transaction_is_incomplete (env : Env W) (st : Sys W) (payer : String)
    (rest : List String) (body : String) (req : MoneySentRequest) (tx : TransactionInfo)
    (n1 : Net W) (hdec : env.decodeMoneySentRequest body = .ok req)
    (hget : GetTxInfo env st.net req.TransactionID = (.ok tx, n1))
    (hfail : tx.Success = false) :
    (∀ buySide sellSide, checkTransaction env st req.TransactionID buySide sellSide =
      ((false, some "transaction did not complete successfully"), ⟨st.s, n1⟩)) ∧
    MoneySentHandle env st (some (payer :: rest)) body =
      (.response 400 "transaction did not complete successfully", ⟨st.s, n1⟩) ∧
    n1.calls = st.net.calls ++ [.getTxInfo req.TransactionID] := by
  have hct : ∀ buySide sellSide, checkTransaction env st req.TransactionID buySide sellSide =
      ((false, some "transaction did not complete successfully"), ⟨st.s, n1⟩) := by
    intro buySide sellSide
    rw [checkTransaction_of_ok env st _ buySide sellSide hget]
    simp [hfail]
  exact ⟨hct, MoneySentHandle_of_rejected env st _ payer rest body _ hdec (hct _ _),
    GetTxInfo_calls_of_eq hget⟩

/-- C5, at alice reporting a transaction that the ledger knows as failed. -/
theorem failed_transaction_is_incomplete_witness :
    demoEnv.decodeMoneySentRequest "tx-failed" = .ok ⟨"tx-failed"⟩ ∧
      (GetTxInfo demoEnv afterAliceBob.net "tx-failed").1.toOption =
        some { (default : TransactionInfo) with Success := false, From := "0xA", To := "0xB" } ∧
      (MoneySentHandle demoEnv afterAliceBob (some ["alice"]) "tx-failed").1 =
        .response 400 "transaction did not complete successfully" :=
  ⟨rfl, by decide,
    congrArg Prod.fst
      (failed_transaction_is_incomplete demoEnv afterAliceBob "alice" [] "tx-failed"
        ⟨"tx-failed"⟩ _ (GetTxInfo demoEnv afterAliceBob.net "tx-failed").2 rfl rfl rfl).2.1⟩

/-- C6.  When the ledger lookup succeeds and the transaction has
`success = true`, `checkTransaction` passes if and only if the `from`
address is, as a string, the recorded wallet of the paying side and the `to`
address the recorded wallet of the other side; otherwise it returns not-ok
with one of the two address errors.  `MoneySentHandle`, which takes the
payer as paying side and the payer's entry of `matchedSellAccounts` as
counter-party, then answers 400 having made no call but the lookup.  A
transaction with the two addresses swapped is rejected whenever the two
wallets differ. -/
theorem addresses_decide_verification (env : Env W) (st : Sys W) (payer : String)
    (rest : List String) (body : String) (req : MoneySentRequest) (tx : TransactionInfo)
    (n1 : Net W) (hdec : env.decodeMoneySentRequest body = .ok req)
    (hget : GetTxInfo env st.net req.TransactionID = (.ok tx, n1))
    (hsucc : tx.Success = true) :
    (∀ buySide sellSide,
      ((checkTransaction env st req.TransactionID buySide sellSide).1 = (true, none) ↔
        tx.From = st.s.ethereumWallets.getStr buySide ∧
          tx.To = st.s.ethereumWallets.getStr sellSide) ∧
      (¬ (tx.From = st.s.ethereumWallets.getStr buySide ∧
          tx.To = st.s.ethereumWallets.getStr sellSide) →
        checkTransaction env st req.TransactionID buySide sellSide =
            ((false, some "transaction sender address is incorrect"), ⟨st.s, n1⟩) ∨
          checkTransaction env st req.TransactionID buySide sellSide =
            ((false, some "transaction receiver address is incorrect"), ⟨st.s, n1⟩)) ∧
      (tx.From = st.s.ethereumWallets.getStr sellSide →
        tx.To = st.s.ethereumWallets.getStr buySide →
        st.s.ethereumWallets.getStr buySide ≠ st.s.ethereumWallets.getStr sellSide →
        (checkTransaction env st req.TransactionID buySide sellSide).1 =
          (false, some "transaction sender address is incorrect"))) ∧
    (¬ (tx.From = st.s.ethereumWallets.getStr payer ∧
        tx.To = st.s.ethereumWallets.getStr (st.s.matchedSellAccounts.getStr payer)) →
      (MoneySentHandle env st (some (payer :: rest)) body =
          (.response 400 "transaction sender address is incorrect", ⟨st.s, n1⟩) ∨
        MoneySentHandle env st (some (payer :: rest)) body =
          (.response 400 "transaction receiver address is incorrect", ⟨st.s, n1⟩)) ∧
      n1.calls = st.net.calls ++ [.getTxInfo req.TransactionID]) := by
  have hct : ∀ buySide sellSide,
      ¬ (tx.From = st.s.ethereumWallets.getStr buySide ∧
          tx.To = st.s.ethereumWallets.getStr sellSide) →
        checkTransaction env st req.TransactionID buySide sellSide =
            ((false, some "transaction sender address is incorrect"), ⟨st.s, n1⟩) ∨
          checkTransaction env st req.TransactionID buySide sellSide =
            ((false, some "transaction receiver address is incorrect"), ⟨st.s, n1⟩) := by
    intro buySide sellSide hne
    rw [checkTransaction_of_ok env st _ buySide sellSide hget]
    by_cases hf : tx.From = st.s.ethereumWallets.getStr buySide
    · have ht : tx.To ≠ st.s.ethereumWallets.getStr sellSide := fun ht => hne ⟨hf, ht⟩
      right
      simp [hsucc, hf, ht]
    · left
      simp [hsucc, hf]
  constructor
  · intro buySide sellSide
    refine ⟨?_, hct buySide sellSide, ?_⟩
    · rw [checkTransaction_of_ok env st _ buySide sellSide hget]
      by_cases hf : tx.From = st.s.ethereumWallets.getStr buySide
      · by_cases ht : tx.To = st.s.ethereumWallets.getStr sellSide
        · simp [hsucc, hf, ht]
        · simp [hsucc, hf, ht]
      · simp [hsucc, hf]
    · intro hf ht hne
      rw [checkTransaction_of_ok env st _ buySide sellSide hget]
      have hf2 : tx.From ≠ st.s.ethereumWallets.getStr buySide := by
        rw [hf]
        exact fun h => hne h.symm
      simp [hsucc, hf2]
  · intro hne
    refine ⟨?_, GetTxInfo_calls_of_eq hget⟩
    rcases hct payer (st.s.matchedSellAccounts.getStr payer) hne with h | h
    · exact Or.inl (MoneySentHandle_of_rejected env st _ payer rest body _ hdec h)
    · exact Or.inr (MoneySentHandle_of_rejected env st _ payer rest body _ hdec h)

/-- C6, at alice reporting a transaction whose addresses are swapped. -/
theorem addresses_decide_verification_witness :
    demoEnv.decodeMoneySentRequest "tx-bob-to-alice" = .ok ⟨"tx-bob-to-alice"⟩ ∧
      (GetTxInfo demoEnv afterAliceBob.net "tx-bob-to-alice").1.toOption =
        some { (default : TransactionInfo) with Success := true, From := "0xB", To := "0xA" } ∧
      (checkTransaction demoEnv afterAliceBob "tx-bob-to-alice" "alice" "bob").1 =
        (false, some "transaction sender address is incorrect") :=
  ⟨rfl, by decide,
    ((addresses_decide_verification demoEnv afterAliceBob "alice" [] "tx-bob-to-alice"
      ⟨"tx-bob-to-alice"⟩ _ (GetTxInfo demoEnv afterAliceBob.net "tx-bob-to-alice").2
      rfl rfl rfl).1 "alice" "bob").2.2 (by decide) (by decide) (by decide)⟩

/-- C7 as stated fails.  Alice (buyer, wallet `0xA`) and bob (seller, wallet
`0xB`) are matched and the trade is recorded under both; the ledger knows a
successful transaction from bob's wallet to alice's.  Reported by alice it
is rejected for its sender, reported by bob for its receiver; in both cases
no payment transition reaches the gateway. -/
theorem seller_to_buyer_settles_counterexample :
    afterAliceBob.s.buyTrades.get? "alice" = some demoTrade ∧
      afterAliceBob.s.sellTrades.get? "bob" = some demoTrade ∧
      afterAliceBob.s.ethereumWallets.getStr "alice" = "0xA" ∧
      afterAliceBob.s.ethereumWallets.getStr "bob" = "0xB" ∧
      (GetTxInfo demoEnv afterAliceBob.net "tx-bob-to-alice").1.toOption =
        some { (default : TransactionInfo) with Success := true, From := "0xB", To := "0xA" } ∧
      (MoneySentHandle demoEnv afterAliceBob (some ["alice"]) "tx-bob-to-alice").1 =
        .response 400 "transaction sender address is incorrect" ∧
      (MoneySentHandle demoEnv afterAliceBob (some ["bob"]) "tx-bob-to-alice").1 =
        .response 400 "transaction receiver address is incorrect" ∧
      (MoneySentHandle demoEnv afterAliceBob (some ["alice"]) "tx-bob-to-alice").2.net.calls =
        afterAliceBob.net.calls ++ [.getTxInfo "tx-bob-to-alice"] ∧
      (MoneySentHandle demoEnv afterAliceBob (some ["bob"]) "tx-bob-to-alice").2.net.calls =
        afterAliceBob.net.calls ++ [.getTxInfo "tx-bob-to-alice"] := by
  decide

/-- C7, amended.  In a state where the buyer alice is bound to the seller
bob, their wallets are recorded and the trade is recorded under alice in
`buyTrades`, a settlement reported by alice with a ledger transaction that
has `success = true`, `from` equal to alice's wallet and `to` equal to
bob's wallet makes the gateway receive payment-started and then
payment-received, both for the recorded trade and addressed by its ID, and
answers 200 when both transitions succeed. -/
theorem buyer_to_seller_settles (env : Env W) (st : Sys W) (alice bob wA wB : String)
    (rest : List String) (body : String) (req : MoneySentRequest) (tx : TransactionInfo)
    (trade : TradeDetails) (n1 n2 n3 : Net W)
    (hdec : env.decodeMoneySentRequest body = .ok req)
    (hbind : st.s.matchedSellAccounts.getStr alice = bob)
    (hwa : st.s.ethereumWallets.getStr alice = wA)
    (hwb : st.s.ethereumWallets.getStr bob = wB)
    (htrade : st.s.buyTrades.get? alice = some trade)
    (hget : GetTxInfo env st.net req.TransactionID = (.ok tx, n1))
    (hsucc : tx.Success = true) (hfrom : tx.From = wA) (hto : tx.To = wB)
    (hstarted : PaymentStarted env n1 (some trade) = (.ret none, n2))
    (hreceived : PaymentReceived env n2 (some trade) = (.ret none, n3)) :
    MoneySentHandle env st (some (alice :: rest)) body =
      (.response 200 "trade completed successfully", ⟨st.s, n3⟩) ∧
    n3.calls = st.net.calls ++
      [.getTxInfo req.TransactionID, .paymentStarted (some trade),
        .paymentReceived (some trade)] ∧
    n3.sent = n1.sent ++
      [⟨"POST", BisqAPIURL ++ PaymentStartedURL trade.ID, "application/json", .nil⟩,
        ⟨"POST", BisqAPIURL ++ PaymentReceivedURL trade.ID, "application/json", .nil⟩] := by
  have hct : checkTransaction env st req.TransactionID alice
      (st.s.matchedSellAccounts.getStr alice) = ((true, none), ⟨st.s, n1⟩) := by
    rw [checkTransaction_of_ok env st _ _ _ hget]
    simp [hsucc, hbind, hwa, hwb, hfrom, hto]
  refine ⟨?_, ?_, ?_⟩
  · unfold MoneySentHandle
    simp only [hdec, hct, htrade, handleSuccessfulTransaction, hstarted, hreceived]
  · rw [PaymentReceived_calls_of_eq hreceived, PaymentStarted_calls_of_eq hstarted,
      GetTxInfo_calls_of_eq hget]
    simp
  · rw [PaymentReceived_sent_of_ok hreceived, PaymentStarted_sent_of_ok hstarted]
    simp

/-- C7 amended, at alice reporting her payment to bob after their match. -/
theorem buyer_to_seller_settles_witness :
    afterAliceBob.s.matchedSellAccounts.getStr "alice" = "bob" ∧
      afterAliceBob.s.ethereumWallets.getStr "alice" = "0xA" ∧
      afterAliceBob.s.ethereumWallets.getStr "bob" = "0xB" ∧
      afterAliceBob.s.buyTrades.get? "alice" = some demoTrade ∧
      (MoneySentHandle demoEnv afterAliceBob (some ["alice"]) "tx-alice-to-bob").1 =
        .response 200 "trade completed successfully" :=
  ⟨by decide, by decide, by decide, by decide,
    congrArg Prod.fst
      (buyer_to_seller_settles demoEnv afterAliceBob "alice" "bob" "0xA" "0xB" []
        "tx-alice-to-bob" ⟨"tx-alice-to-bob"⟩
        { (default : TransactionInfo) with Success := true, From := "0xA", To := "0xB" }
        demoTrade
        (GetTxInfo demoEnv afterAliceBob.net "tx-alice-to-bob").2
        (PaymentStarted demoEnv (GetTxInfo demoEnv afterAliceBob.net "tx-alice-to-bob").2
          (some demoTrade)).2
        (PaymentReceived demoEnv
          (PaymentStarted demoEnv (GetTxInfo demoEnv afterAliceBob.net "tx-alice-to-bob").2
            (some demoTrade)).2 (some demoTrade)).2
        rfl (by decide) (by decide) (by decide) (by decide) rfl rfl rfl rfl rfl rfl).1⟩

/-- C8.  The gateway calls of `handleMatchedOffers` are, in this order, the
registration of the buyer, the publication of the buyer's offer, the
registration of the seller and the take request; the first call that fails
is the last call made and its error is the error returned; nil is returned
exactly when all four calls succeed.  What earlier steps wrote stays
written: the match bindings always, the buyer's account and wallet once the
first registration succeeded, the seller's once the second did. -/
theorem handleMatchedOffers_stops_at_first_failure (env : Env W) (st : Sys W)
    (b s : UserOffer) :
    (∀ err n1, RegisterPaymentAccounts env st.net (registrationRequest b) = (.error err, n1) →
      handleMatchedOffers env st b s = (some err, ⟨recordMatch st.s b s, n1⟩) ∧
      n1.calls = st.net.calls ++ [.registerPaymentAccounts (registrationRequest b)]) ∧
    (∀ respBuy n1, RegisterPaymentAccounts env st.net (registrationRequest b) = (.ok respBuy, n1) →
      (∀ err n2, PublishOffer env n1 (publishRequest respBuy b) = (.error err, n2) →
        handleMatchedOffers env st b s =
          (some err, ⟨recordAccount (recordMatch st.s b s) respBuy, n2⟩) ∧
        n2.calls = st.net.calls ++
          [.registerPaymentAccounts (registrationRequest b),
            .publishOffer (publishRequest respBuy b)]) ∧
      (∀ od n2, PublishOffer env n1 (publishRequest respBuy b) = (.ok od, n2) →
        (∀ err n3, RegisterPaymentAccounts env n2 (registrationRequest s) = (.error err, n3) →
          handleMatchedOffers env st b s =
            (some err, ⟨recordAccount (recordMatch st.s b s) respBuy, n3⟩) ∧
          n3.calls = st.net.calls ++
            [.registerPaymentAccounts (registrationRequest b),
              .publishOffer (publishRequest respBuy b),
              .registerPaymentAccounts (registrationRequest s)]) ∧
        (∀ respSell n3,
          RegisterPaymentAccounts env n2 (registrationRequest s) = (.ok respSell, n3) →
          (∀ err n4, TakeOffer env n3 (takeRequest respSell b) = (.error err, n4) →
            handleMatchedOffers env st b s =
              (some err,
                ⟨recordAccount (recordAccount (recordMatch st.s b s) respBuy) respSell, n4⟩) ∧
            n4.calls = st.net.calls ++
              [.registerPaymentAccounts (registrationRequest b),
                .publishOffer (publishRequest respBuy b),
                .registerPaymentAccounts (registrationRequest s),
                .takeOffer (takeRequest respSell b)]) ∧
          (∀ trade n4, TakeOffer env n3 (takeRequest respSell b) = (.ok trade, n4) →
            handleMatchedOffers env st b s =
              (none,
                ⟨recordTrade (recordAccount (recordAccount (recordMatch st.s b s) respBuy)
                  respSell) respBuy respSell trade, n4⟩) ∧
            n4.calls = st.net.calls ++
              [.registerPaymentAccounts (registrationRequest b),
                .publishOffer (publishRequest respBuy b),
                .registerPaymentAccounts (registrationRequest s),
                .takeOffer (takeRequest respSell b)])))) ∧
    ((handleMatchedOffers env st b s).1 = none ↔
      ∃ respBuy n1 od n2 respSell n3 trade n4,
        RegisterPaymentAccounts env st.net (registrationRequest b) = (.ok respBuy, n1) ∧
        PublishOffer env n1 (publishRequest respBuy b) = (.ok od, n2) ∧
        RegisterPaymentAccounts env n2 (registrationRequest s) = (.ok respSell, n3) ∧
        TakeOffer env n3 (takeRequest respSell b) = (.ok trade, n4)) ∧
    (∃ respBuy respSell k, 1 ≤ k ∧ k ≤ 4 ∧
      (handleMatchedOffers env st b s).2.net.calls = st.net.calls ++
        ([.registerPaymentAccounts (registrationRequest b),
          .publishOffer (publishRequest respBuy b),
          .registerPaymentAccounts (registrationRequest s),
          .takeOffer (takeRequest respSell b)] : List ApiCall).take k) := by
  have heq := handleMatchedOffers_eq env st b s
  refine ⟨?_, ?_, ?_, ?_⟩
  · intro err n1 h1
    rw [h1] at heq
    exact ⟨heq, RegisterPaymentAccounts_calls_of_eq h1⟩
  · intro respBuy n1 h1
    have c1 := RegisterPaymentAccounts_calls_of_eq h1
    rw [h1] at heq
    simp only [] at heq
    constructor
    · intro err n2 h2
      rw [h2] at heq
      refine ⟨heq, ?_⟩
      rw [PublishOffer_calls_of_eq h2, c1, List.append_assoc]
      rfl
    · intro od n2 h2
      have c2 := PublishOffer_calls_of_eq h2
      rw [h2] at heq
      simp only [] at heq
      constructor
      · intro err n3 h3
        rw [h3] at heq
        refine ⟨heq, ?_⟩
        rw [RegisterPaymentAccounts_calls_of_eq h3, c2, c1]
        simp
      · intro respSell n3 h3
        have c3 := RegisterPaymentAccounts_calls_of_eq h3
        rw [h3] at heq
        simp only [] at heq
        constructor
        · intro err n4 h4
          rw [h4] at heq
          refine ⟨heq, ?_⟩
          rw [TakeOffer_calls_of_eq h4, c3, c2, c1]
          simp
        · intro trade n4 h4
          rw [h4] at heq
          refine ⟨heq, ?_⟩
          rw [TakeOffer_calls_of_eq h4, c3, c2, c1]
          simp
  · constructor
    · intro hnone
      obtain ⟨r1, n1, h1⟩ : ∃ r1 n1,
          RegisterPaymentAccounts env st.net (registrationRequest b) = (r1, n1) := ⟨_, _, rfl⟩
      cases r1 with
      | error err =>
        rw [heq, h1] at hnone
        exact absurd hnone (by simp)
      | ok respBuy =>
        obtain ⟨r2, n2, h2⟩ : ∃ r2 n2,
            PublishOffer env n1 (publishRequest respBuy b) = (r2, n2) := ⟨_, _, rfl⟩
        cases r2 with
        | error err =>
          rw [heq, h1] at hnone
          simp only [h2] at hnone
          exact absurd hnone (by simp)
        | ok od =>
          obtain ⟨r3, n3, h3⟩ : ∃ r3 n3,
              RegisterPaymentAccounts env n2 (registrationRequest s) = (r3, n3) := ⟨_, _, rfl⟩
          cases r3 with
          | error err =>
            rw [heq, h1] at hnone
            simp only [h2, h3] at hnone
            exact absurd hnone (by simp)
          | ok respSell =>
            obtain ⟨r4, n4, h4⟩ : ∃ r4 n4,
                TakeOffer env n3 (takeRequest respSell b) = (r4, n4) := ⟨_, _, rfl⟩
            cases r4 with
            | error err =>
              rw [heq, h1] at hnone
              simp only [h2, h3, h4] at hnone
              exact absurd hnone (by simp)
            | ok trade => exact ⟨respBuy, n1, od, n2, respSell, n3, trade, n4, h1, h2, h3, h4⟩
    · rintro ⟨respBuy, n1, od, n2, respSell, n3, trade, n4, h1, h2, h3, h4⟩
      rw [heq, h1]
      simp only [h2, h3, h4]
  · obtain ⟨r1, n1, h1⟩ : ∃ r1 n1,
        RegisterPaymentAccounts env st.net (registrationRequest b) = (r1, n1) := ⟨_, _, rfl⟩
    have c1 := RegisterPaymentAccounts_calls_of_eq h1
    cases r1 with
    | error err =>
      refine ⟨default, default, 1, le_refl _, by decide, ?_⟩
      rw [heq, h1]
      simpa using c1
    | ok respBuy =>
      obtain ⟨r2, n2, h2⟩ : ∃ r2 n2,
          PublishOffer env n1 (publishRequest respBuy b) = (r2, n2) := ⟨_, _, rfl⟩
      have c2 := PublishOffer_calls_of_eq h2
      cases r2 with
      | error err =>
        refine ⟨respBuy, default, 2, by decide, by decide, ?_⟩
        rw [heq, h1]
        simp only [h2]
        simp [c2, c1]
      | ok od =>
        obtain ⟨r3, n3, h3⟩ : ∃ r3 n3,
            RegisterPaymentAccounts env n2 (registrationRequest s) = (r3, n3) := ⟨_, _, rfl⟩
        have c3 := RegisterPaymentAccounts_calls_of_eq h3
        cases r3 with
        | error err =>
          refine ⟨respBuy, default, 3, by decide, by decide, ?_⟩
          rw [heq, h1]
          simp only [h2, h3]
          simp [c3, c2, c1]
        | ok respSell =>
          obtain ⟨r4, n4, h4⟩ : ∃ r4 n4,
              TakeOffer env n3 (takeRequest respSell b) = (r4, n4) := ⟨_, _, rfl⟩
          have c4 := TakeOffer_calls_of_eq h4
          refine ⟨respBuy, respSell, 4, by decide, by decide, ?_⟩
          rw [heq, h1]
          cases r4 with
          | error err =>
            simp only [h2, h3, h4]
            simp [c4, c3, c2, c1]
          | ok trade =>
            simp only [h2, h3, h4]
            simp [c4, c3, c2, c1]

/-- C8, at carol's offer meeting alice's resting BUY offer: the gateway
registers alice, publishes her offer and fails to register carol, so the
third call is the last and its error is returned. -/
theorem handleMatchedOffers_stops_at_first_failure_witness :
    (handleMatchedOffers demoEnv afterAliceBuy aliceBuy carolHold).1 =
        some "unexpected end of JSON input" ∧
      (handleMatchedOffers demoEnv afterAliceBuy aliceBuy carolHold).2.net.calls =
        [.registerPaymentAccounts (registrationRequest aliceBuy),
          .publishOffer (publishRequest { registrationRequest aliceBuy with ID := "acc-alice" }
            aliceBuy),
          .registerPaymentAccounts (registrationRequest carolHold)] :=
  have h := ((((handleMatchedOffers_stops_at_first_failure demoEnv afterAliceBuy aliceBuy
    carolHold).2.1 { registrationRequest aliceBuy with ID := "acc-alice" }
      (RegisterPaymentAccounts demoEnv afterAliceBuy.net (registrationRequest aliceBuy)).2
      rfl).2 demoOffer
      (PublishOffer demoEnv
        (RegisterPaymentAccounts demoEnv afterAliceBuy.net (registrationRequest aliceBuy)).2
        (publishRequest { registrationRequest aliceBuy with ID := "acc-alice" } aliceBuy)).2
      rfl).1 "unexpected end of JSON input"
      (RegisterPaymentAccounts demoEnv
        (PublishOffer demoEnv
          (RegisterPaymentAccounts demoEnv afterAliceBuy.net (registrationRequest aliceBuy)).2
          (publishRequest { registrationRequest aliceBuy with ID := "acc-alice" } aliceBuy)).2
        (registrationRequest carolHold)).2
      rfl)
  ⟨congrArg Prod.fst h.1, by rw [h.1]; exact h.2⟩

/-- C9 as stated fails.  With a gateway whose registration answers carry
another account name than the one sent, all four calls succeed and the
trade is stored, but under the names of the answers: nothing is retrievable
under the submitter IDs `"alice"` and `"bob"`. -/
theorem trade_indexed_by_submitter_counterexample :
    (handleMatchedOffers renamingEnv demoInit aliceBuy bobSell).1 = none ∧
      (handleMatchedOffers renamingEnv demoInit aliceBuy bobSell).2.net.calls.length = 4 ∧
      (handleMatchedOffers renamingEnv demoInit aliceBuy bobSell).2.s.buyTrades.get? "alice" =
        none ∧
      (handleMatchedOffers renamingEnv demoInit aliceBuy bobSell).2.s.sellTrades.get? "bob" =
        none ∧
      (handleMatchedOffers renamingEnv demoInit aliceBuy bobSell).2.s.buyTrades.get?
        "bisq-alice" = some demoTrade ∧
      (handleMatchedOffers renamingEnv demoInit aliceBuy bobSell).2.s.sellTrades.get?
        "bisq-bob" = some demoTrade := by
  decide

/-- C9, amended.  When the four gateway calls of a matched pair succeed,
the trade returned by `TakeOffer` is retrievable from `buyTrades` under the
name of the account that the buyer's registration returned and from
`sellTrades` under the name of the account that the seller's registration
returned, the same record in both; these names are the submitter IDs when
the gateway answers with the names it was sent.  The publish request
carries `fixedPrice = buyOffer.Price`, `amount = minAmount =
buyOffer.Amount`, direction BUY and the account ID of the buyer's
registration; the take request carries the account ID of the seller's
registration and the same amount. -/
theorem trade_indexed_under_registered_names (env : Env W) (st : Sys W) (b s : UserOffer)
    (respBuy respSell : PaymentAccount) (od : OfferDetail) (trade : TradeDetails)
    (n1 n2 n3 n4 : Net W)
    (h1 : RegisterPaymentAccounts env st.net (registrationRequest b) = (.ok respBuy, n1))
    (h2 : PublishOffer env n1 (publishRequest respBuy b) = (.ok od, n2))
    (h3 : RegisterPaymentAccounts env n2 (registrationRequest s) = (.ok respSell, n3))
    (h4 : TakeOffer env n3 (takeRequest respSell b) = (.ok trade, n4)) :
    (handleMatchedOffers env st b s).1 = none ∧
    (handleMatchedOffers env st b s).2.s.buyTrades.get? respBuy.Name = some trade ∧
    (handleMatchedOffers env st b s).2.s.sellTrades.get? respSell.Name = some trade ∧
    (respBuy.Name = b.AccountName →
      (handleMatchedOffers env st b s).2.s.buyTrades.get? b.AccountName = some trade) ∧
    (respSell.Name = s.AccountName →
      (handleMatchedOffers env st b s).2.s.sellTrades.get? s.AccountName = some trade) ∧
    (handleMatchedOffers env st b s).2.net.calls = st.net.calls ++
      [.registerPaymentAccounts (registrationRequest b),
        .publishOffer (publishRequest respBuy b),
        .registerPaymentAccounts (registrationRequest s),
        .takeOffer (takeRequest respSell b)] ∧
    (publishRequest respBuy b).FixedPrice = b.Price ∧
    (publishRequest respBuy b).Amount = b.Amount ∧
    (publishRequest respBuy b).MinAmount = b.Amount ∧
    (publishRequest respBuy b).Direction = "BUY" ∧
    (publishRequest respBuy b).AccountID = respBuy.ID ∧
    (takeRequest respSell b).PaymentAccountID = respSell.ID ∧
    (takeRequest respSell b).Amount = (publishRequest respBuy b).Amount := by
  have heq := handleMatchedOffers_eq env st b s
  rw [h1] at heq
  simp only [] at heq
  rw [h2] at heq
  simp only [] at heq
  rw [h3] at heq
  simp only [] at heq
  rw [h4] at heq
  simp only [] at heq
  have hb : (handleMatchedOffers env st b s).2.s.buyTrades.get? respBuy.Name = some trade := by
    rw [heq]
    exact GoMap.get?_set_self _ _ _
  have hs : (handleMatchedOffers env st b s).2.s.sellTrades.get? respSell.Name = some trade := by
    rw [heq]
    exact GoMap.get?_set_self _ _ _
  refine ⟨by rw [heq], hb, hs, fun h => h ▸ hb, fun h => h ▸ hs, ?_, rfl, rfl, rfl, rfl, rfl,
    rfl, rfl⟩
  rw [heq]
  show n4.calls = _
  rw [TakeOffer_calls_of_eq h4, RegisterPaymentAccounts_calls_of_eq h3,
    PublishOffer_calls_of_eq h2, RegisterPaymentAccounts_calls_of_eq h1]
  simp

/-- C9 amended, at alice and bob matched on the fresh service by a gateway
that answers with the names it was sent. -/
theorem trade_indexed_under_registered_names_witness :
    (handleMatchedOffers demoEnv demoInit aliceBuy bobSell).2.s.buyTrades.get? "alice" =
        some demoTrade ∧
      (handleMatchedOffers demoEnv demoInit aliceBuy bobSell).2.s.sellTrades.get? "bob" =
        some demoTrade :=
  have h := trade_indexed_under_registered_names demoEnv demoInit aliceBuy bobSell
    { registrationRequest aliceBuy with ID := "acc-alice" }
    { registrationRequest bobSell with ID := "acc-bob" } demoOffer demoTrade
    (RegisterPaymentAccounts demoEnv demoInit.net (registrationRequest aliceBuy)).2
    (PublishOffer demoEnv
      (RegisterPaymentAccounts demoEnv demoInit.net (registrationRequest aliceBuy)).2
      (publishRequest { registrationRequest aliceBuy with ID := "acc-alice" } aliceBuy)).2
    (RegisterPaymentAccounts demoEnv
      (PublishOffer demoEnv
        (RegisterPaymentAccounts demoEnv demoInit.net (registrationRequest aliceBuy)).2
        (publishRequest { registrationRequest aliceBuy with ID := "acc-alice" } aliceBuy)).2
      (registrationRequest bobSell)).2
    (TakeOffer demoEnv
      (RegisterPaymentAccounts demoEnv
        (PublishOffer demoEnv
          (RegisterPaymentAccounts demoEnv demoInit.net (registrationRequest aliceBuy)).2
          (publishRequest { registrationRequest aliceBuy with ID := "acc-alice" } aliceBuy)).2
        (registrationRequest bobSell)).2
      (takeRequest { registrationRequest bobSell with ID := "acc-bob" } aliceBuy)).2
    rfl rfl rfl rfl
  ⟨h.2.2.2.1 rfl, h.2.2.2.2.1 rfl⟩

/-- C10 as stated fails.  After alice and bob were matched once, both have
an entry in `accounts`.  Alice's offer still rests in the buy book, so a
second SELL offer of bob matches it again, and the gateway is asked to
register alice and bob a second time. -/
theorem registration_reused_counterexample :
    afterAliceBob.s.accounts.get? "alice" =
        some { registrationRequest aliceBuy with ID := "acc-alice" } ∧
      afterAliceBob.s.accounts.get? "bob" =
        some { registrationRequest bobSell with ID := "acc-bob" } ∧
      (SellHandle demoEnv afterAliceBob "bob-sell").1 =
        .response 200 "Your offer was matched successfully." ∧
      (SellHandle demoEnv afterAliceBob "bob-sell").2.net.calls =
        afterAliceBob.net.calls ++
          [.registerPaymentAccounts (registrationRequest aliceBuy),
            .publishOffer (publishRequest { registrationRequest aliceBuy with ID := "acc-alice" }
              aliceBuy),
            .registerPaymentAccounts (registrationRequest bobSell),
            .takeOffer (takeRequest { registrationRequest bobSell with ID := "acc-bob" }
              aliceBuy)] := by
  decide

/-- C10, amended.  Registration is repeated on every match:
`handleMatchedOffers` never reads the `accounts` map, so its result and its
gateway traffic are the same whatever bindings are cached; its first call is
always the registration of the buyer, and once the publish step has
succeeded it always registers the seller; each successful registration
overwrites the entry of `accounts` under the name of the answer. -/
theorem registration_is_repeated (env : Env W) (st : Sys W) (b s : UserOffer) :
    (∀ cached : GoMap PaymentAccount,
      (handleMatchedOffers env ⟨{ st.s with accounts := cached }, st.net⟩ b s).1 =
          (handleMatchedOffers env st b s).1 ∧
        (handleMatchedOffers env ⟨{ st.s with accounts := cached }, st.net⟩ b s).2.net =
          (handleMatchedOffers env st b s).2.net) ∧
    (∃ rest, (handleMatchedOffers env st b s).2.net.calls =
      st.net.calls ++ .registerPaymentAccounts (registrationRequest b) :: rest) ∧
    (∀ respBuy n1 od n2,
      RegisterPaymentAccounts env st.net (registrationRequest b) = (.ok respBuy, n1) →
      PublishOffer env n1 (publishRequest respBuy b) = (.ok od, n2) →
      (∃ rest, (handleMatchedOffers env st b s).2.net.calls =
        st.net.calls ++
          .registerPaymentAccounts (registrationRequest b) ::
            .publishOffer (publishRequest respBuy b) ::
              .registerPaymentAccounts (registrationRequest s) :: rest) ∧
      (∀ respSell n3,
        RegisterPaymentAccounts env n2 (registrationRequest s) = (.ok respSell, n3) →
        (handleMatchedOffers env st b s).2.s.accounts.get? respSell.Name = some respSell ∧
        (respBuy.Name ≠ respSell.Name →
          (handleMatchedOffers env st b s).2.s.accounts.get? respBuy.Name = some respBuy))) := by
  have heq := handleMatchedOffers_eq env st b s
  refine ⟨?_, handleMatchedOffers_calls_head env st b s, ?_⟩
  · intro cached
    rw [heq, handleMatchedOffers_eq]
    obtain ⟨r1, n1, h1⟩ : ∃ r1 n1,
        RegisterPaymentAccounts env st.net (registrationRequest b) = (r1, n1) := ⟨_, _, rfl⟩
    cases r1 with
    | error err =>
      simp only [h1]
      exact ⟨trivial, trivial⟩
    | ok respBuy =>
      obtain ⟨r2, n2, h2⟩ : ∃ r2 n2,
          PublishOffer env n1 (publishRequest respBuy b) = (r2, n2) := ⟨_, _, rfl⟩
      cases r2 with
      | error err =>
        simp only [h1, h2]
        exact ⟨trivial, trivial⟩
      | ok od =>
        obtain ⟨r3, n3, h3⟩ : ∃ r3 n3,
            RegisterPaymentAccounts env n2 (registrationRequest s) = (r3, n3) := ⟨_, _, rfl⟩
        cases r3 with
        | error err =>
          simp only [h1, h2, h3]
          exact ⟨trivial, trivial⟩
        | ok respSell =>
          obtain ⟨r4, n4, h4⟩ : ∃ r4 n4,
              TakeOffer env n3 (takeRequest respSell b) = (r4, n4) := ⟨_, _, rfl⟩
          cases r4 with
          | error err =>
            simp only [h1, h2, h3, h4]
            exact ⟨trivial, trivial⟩
          | ok trade =>
            simp only [h1, h2, h3, h4]
            exact ⟨trivial, trivial⟩
  · intro respBuy n1 od n2 h1 h2
    have c1 := RegisterPaymentAccounts_calls_of_eq h1
    have c2 := PublishOffer_calls_of_eq h2
    rw [h1] at heq
    simp only [] at heq
    rw [h2] at heq
    simp only [] at heq
    constructor
    · obtain ⟨r3, n3, h3⟩ : ∃ r3 n3,
          RegisterPaymentAccounts env n2 (registrationRequest s) = (r3, n3) := ⟨_, _, rfl⟩
      have c3 := RegisterPaymentAccounts_calls_of_eq h3
      rw [heq]
      cases r3 with
      | error err =>
        simp only [h3]
        exact ⟨[], by simp [c3, c2, c1]⟩
      | ok respSell =>
        obtain ⟨r4, n4, h4⟩ : ∃ r4 n4,
            TakeOffer env n3 (takeRequest respSell b) = (r4, n4) := ⟨_, _, rfl⟩
        have c4 := TakeOffer_calls_of_eq h4
        cases r4 with
        | error err =>
          simp only [h3, h4]
          exact ⟨[.takeOffer (takeRequest respSell b)], by simp [c4, c3, c2, c1]⟩
        | ok trade =>
          simp only [h3, h4]
          exact ⟨[.takeOffer (takeRequest respSell b)], by simp [c4, c3, c2, c1]⟩
    · intro respSell n3 h3
      rw [h3] at heq
      simp only [] at heq
      rw [heq]
      obtain ⟨r4, n4, h4⟩ : ∃ r4 n4,
          TakeOffer env n3 (takeRequest respSell b) = (r4, n4) := ⟨_, _, rfl⟩
      have hacc : ((recordAccount (recordMatch st.s b s) respBuy).accounts.set respSell.Name
          respSell).get? respSell.Name = some respSell := GoMap.get?_set_self _ _ _
      have hacc2 : respBuy.Name ≠ respSell.Name →
          ((recordAccount (recordMatch st.s b s) respBuy).accounts.set respSell.Name
            respSell).get? respBuy.Name = some respBuy := by
        intro hne
        rw [GoMap.get?_set_ne _ _ _ _ hne]
        exact GoMap.get?_set_self _ _ _
      cases r4 with
      | error err =>
        simp only [h4]
        exact ⟨hacc, hacc2⟩
      | ok trade =>
        simp only [h4]
        exact ⟨hacc, hacc2⟩

/-- C10 amended, at the state after alice and bob were matched once: with
both bindings cached, matching them again registers bob a second time. -/
theorem registration_is_repeated_witness :
    afterAliceBob.s.accounts.get? "bob" =
        some { registrationRequest bobSell with ID := "acc-bob" } ∧
      ∃ rest, (handleMatchedOffers demoEnv afterAliceBob aliceBuy bobSell).2.net.calls =
        afterAliceBob.net.calls ++
          .registerPaymentAccounts (registrationRequest aliceBuy) ::
            .publishOffer (publishRequest { registrationRequest aliceBuy with ID := "acc-alice" }
              aliceBuy) ::
              .registerPaymentAccounts (registrationRequest bobSell) :: rest :=
  ⟨by decide,
    ((registration_is_repeated demoEnv afterAliceBob aliceBuy bobSell).2.2
      { registrationRequest aliceBuy with ID := "acc-alice" }
      (RegisterPaymentAccounts demoEnv afterAliceBob.net (registrationRequest aliceBuy)).2
      demoOffer
      (PublishOffer demoEnv
        (RegisterPaymentAccounts demoEnv afterAliceBob.net (registrationRequest aliceBuy)).2
        (publishRequest { registrationRequest aliceBuy with ID := "acc-alice" } aliceBuy)).2
      rfl rfl).1⟩

/-- C11 as stated fails.  After alice (buyer, wallet `0xA`) and bob (seller,
wallet `0xB`) were matched, the query for alice returns bob's wallet, but
the query for bob returns the empty string, not alice's wallet: the query
reads `matchedSellAccounts` only, and a match enters only the buyer there. -/
theorem wallet_query_bidirectional_counterexample :
    afterAliceBob.s.matchedSellAccounts.getStr "alice" = "bob" ∧
      afterAliceBob.s.matchedBuyAccounts.getStr "bob" = "alice" ∧
      afterAliceBob.s.ethereumWallets.getStr "alice" = "0xA" ∧
      afterAliceBob.s.ethereumWallets.getStr "bob" = "0xB" ∧
      (CheckOfferHandle afterAliceBob (some ["alice"])).1 = .response 200 "0xB" ∧
      (CheckOfferHandle afterAliceBob (some ["bob"])).1 = .response 200 "" := by
  decide

/-- C11, amended.  The settlement-wallet query answers with the wallet on
record for the submitter's entry in `matchedSellAccounts`, a missing entry
or wallet reading as the empty string, and changes nothing.  A submitter
with no such entry gets the empty string when no wallet is on record under
the empty name.  A match enters only the buyer in `matchedSellAccounts`:
every other submitter's entry, the seller's included, is as before.  After
a match whose two registrations succeeded, the query for the buyer returns
the wallet of the seller's registration answer, provided that answer
carries the seller's name. -/
theorem wallet_query_follows_sell_binding (env : Env W) (st : Sys W) (a : String)
    (rest : List String) (b s : UserOffer) :
    CheckOfferHandle st (some (a :: rest)) =
      (.response 200 (st.s.ethereumWallets.getStr (st.s.matchedSellAccounts.getStr a)), st) ∧
    (st.s.matchedSellAccounts.get? a = none → st.s.ethereumWallets.get? "" = none →
      CheckOfferHandle st (some (a :: rest)) = (.response 200 "", st)) ∧
    (∀ k, k ≠ b.AccountName →
      (handleMatchedOffers env st b s).2.s.matchedSellAccounts.getStr k =
        st.s.matchedSellAccounts.getStr k) ∧
    (∀ respBuy respSell od n1 n2 n3,
      RegisterPaymentAccounts env st.net (registrationRequest b) = (.ok respBuy, n1) →
      PublishOffer env n1 (publishRequest respBuy b) = (.ok od, n2) →
      RegisterPaymentAccounts env n2 (registrationRequest s) = (.ok respSell, n3) →
      respSell.Name = s.AccountName →
      CheckOfferHandle (handleMatchedOffers env st b s).2 (some (b.AccountName :: rest)) =
        (.response 200 respSell.Details, (handleMatchedOffers env st b s).2)) := by
  refine ⟨rfl, ?_, ?_, ?_⟩
  · intro hm hw
    show (Reply.response 200
      (st.s.ethereumWallets.getStr (st.s.matchedSellAccounts.getStr a)), st) = _
    rw [GoMap.getStr_of_get?_none _ _ hm, GoMap.getStr_of_get?_none _ _ hw]
  · intro k hk
    rw [handleMatchedOffers_matchedSellAccounts, GoMap.getStr_set_ne _ _ _ _ hk]
  · intro respBuy respSell od n1 n2 n3 h1 h2 h3 hname
    show (Reply.response 200
      ((handleMatchedOffers env st b s).2.s.ethereumWallets.getStr
        ((handleMatchedOffers env st b s).2.s.matchedSellAccounts.getStr b.AccountName)),
      (handleMatchedOffers env st b s).2) = _
    rw [handleMatchedOffers_matchedSellAccounts, GoMap.getStr_set_self,
      handleMatchedOffers_wallets env st b s h1 h2 h3, ← hname, GoMap.getStr_set_self]

/-- C11 amended, at alice asking for her payment target after her match
with bob. -/
theorem wallet_query_follows_sell_binding_witness :
    (CheckOfferHandle (handleMatchedOffers demoEnv afterAliceBuy aliceBuy bobSell).2
        (some ["alice"])).1 = .response 200 "0xB" :=
  congrArg Prod.fst
    ((wallet_query_follows_sell_binding demoEnv afterAliceBuy "alice" [] aliceBuy bobSell).2.2.2
      { registrationRequest aliceBuy with ID := "acc-alice" }
      { registrationRequest bobSell with ID := "acc-bob" } demoOffer
      (RegisterPaymentAccounts demoEnv afterAliceBuy.net (registrationRequest aliceBuy)).2
      (PublishOffer demoEnv
        (RegisterPaymentAccounts demoEnv afterAliceBuy.net (registrationRequest aliceBuy)).2
        (publishRequest { registrationRequest aliceBuy with ID := "acc-alice" } aliceBuy)).2
      (RegisterPaymentAccounts demoEnv
        (PublishOffer demoEnv
          (RegisterPaymentAccounts demoEnv afterAliceBuy.net (registrationRequest aliceBuy)).2
          (publishRequest { registrationRequest aliceBuy with ID := "acc-alice" } aliceBuy)).2
        (registrationRequest bobSell)).2
      rfl rfl rfl rfl)

/-- C12: the code at a failing input.  Alice and bob were matched and
registered, the take step failed, so no trade is on record for alice.  Her
transaction from her wallet to bob's passes verification; the handler then
reads `s.buyTrades["alice"]`, gets nil, and `api.PaymentStarted` dereferences
it: the handler panics instead of returning an error.  No payment request
reaches the gateway. -/
theorem settlement_without_trade_panics :
    (SellHandle takeFailingEnv (BuyHandle takeFailingEnv demoInit "alice-buy").2 "bob-sell").1 =
        .response 500 "response failure, status = 500" ∧
      afterFailedTake.s.matchedSellAccounts.getStr "alice" = "bob" ∧
      afterFailedTake.s.ethereumWallets.getStr "alice" = "0xA" ∧
      afterFailedTake.s.ethereumWallets.getStr "bob" = "0xB" ∧
      afterFailedTake.s.buyTrades.get? "alice" = none ∧
      (checkTransaction takeFailingEnv afterFailedTake "tx-alice-to-bob" "alice" "bob").1 =
        (true, none) ∧
      (MoneySentHandle takeFailingEnv afterFailedTake (some ["alice"]) "tx-alice-to-bob").1 =
        .panic nilDereference ∧
      (MoneySentHandle takeFailingEnv afterFailedTake (some ["alice"])
          "tx-alice-to-bob").2.net.calls =
        afterFailedTake.net.calls ++ [.getTxInfo "tx-alice-to-bob", .paymentStarted none] ∧
      (MoneySentHandle takeFailingEnv afterFailedTake (some ["alice"])
          "tx-alice-to-bob").2.net.sent =
        afterFailedTake.net.sent ++
          [⟨"GET", "https://api.ethplorer.io/getTxInfo/tx-alice-to-bob", "application/json",
            .nil⟩] := by
  decide

/-- C14.  For a trade record, `handleSuccessfulTransaction` calls
payment-started first.  If that fails, its error is returned and
payment-received is not called.  Otherwise payment-received is called; if
it fails its error is returned, and nil is returned exactly when both
succeed.  It never panics on a record, the service maps are unchanged, and
the requests it sends are, in this order, the POST to the payment-started
path and the POST to the payment-received path of the trade's ID. -/
theorem handleSuccessfulTransaction_sequence (env : Env W) (st : Sys W) (t : TradeDetails) :
    (∀ err n1, PaymentStarted env st.net (some t) = (.ret (some err), n1) →
      handleSuccessfulTransaction env st (some t) = (.ret (some err), ⟨st.s, n1⟩) ∧
      n1.calls = st.net.calls ++ [.paymentStarted (some t)]) ∧
    (∀ n1, PaymentStarted env st.net (some t) = (.ret none, n1) →
      (∀ err n2, PaymentReceived env n1 (some t) = (.ret (some err), n2) →
        handleSuccessfulTransaction env st (some t) = (.ret (some err), ⟨st.s, n2⟩) ∧
        n2.calls = st.net.calls ++ [.paymentStarted (some t), .paymentReceived (some t)]) ∧
      (∀ n2, PaymentReceived env n1 (some t) = (.ret none, n2) →
        handleSuccessfulTransaction env st (some t) = (.ret none, ⟨st.s, n2⟩) ∧
        n2.calls = st.net.calls ++ [.paymentStarted (some t), .paymentReceived (some t)] ∧
        n2.sent = st.net.sent ++
          [⟨"POST", BisqAPIURL ++ PaymentStartedURL t.ID, "application/json", .nil⟩,
            ⟨"POST", BisqAPIURL ++ PaymentReceivedURL t.ID, "application/json", .nil⟩])) ∧
    ((handleSuccessfulTransaction env st (some t)).1 = .ret none ↔
      ∃ n1 n2, PaymentStarted env st.net (some t) = (.ret none, n1) ∧
        PaymentReceived env n1 (some t) = (.ret none, n2)) ∧
    (∃ e, (handleSuccessfulTransaction env st (some t)).1 = .ret e) ∧
    (handleSuccessfulTransaction env st (some t)).2.s = st.s ∧
    (∃ k, k ≤ 2 ∧ (handleSuccessfulTransaction env st (some t)).2.net.sent = st.net.sent ++
      ([⟨"POST", BisqAPIURL ++ PaymentStartedURL t.ID, "application/json", .nil⟩,
        ⟨"POST", BisqAPIURL ++ PaymentReceivedURL t.ID, "application/json", .nil⟩] :
          List HttpRequest).take k) := by
  obtain ⟨r1, n1, h1⟩ : ∃ r1 n1, PaymentStarted env st.net (some t) = (r1, n1) := ⟨_, _, rfl⟩
  have c1 := PaymentStarted_calls_of_eq h1
  have p1 := PaymentStarted_some_returns env st.net t
  have s1 := PaymentStarted_sent_cases env st.net t
  rw [h1] at p1 s1
  obtain ⟨e1, rfl⟩ := p1
  simp only [] at s1
  cases e1 with
  | some err1 =>
    have hres : handleSuccessfulTransaction env st (some t) = (.ret (some err1), ⟨st.s, n1⟩) := by
      simp only [handleSuccessfulTransaction, h1]
    refine ⟨?_, ?_, ?_, ⟨_, congrArg Prod.fst hres⟩, by rw [hres], ?_⟩
    · intro err n1b h
      rw [h1] at h
      injection h with ha hb
      injection ha with ha
      injection ha with ha
      subst ha hb
      exact ⟨hres, c1⟩
    · intro n1b h
      rw [h1] at h
      injection h with ha hb
      injection ha with ha
      cases ha
    · rw [hres]
      constructor
      · intro h
        injection h with h
        cases h
      · rintro ⟨n1b, n2b, h, -⟩
        rw [h1] at h
        exact absurd (congrArg Prod.fst h) (by simp)
    · rw [hres]
      rcases s1 with s1 | s1
      · exact ⟨0, by decide, by simpa using s1⟩
      · exact ⟨1, by decide, by simpa using s1⟩
  | none =>
    have s1ok := PaymentStarted_sent_of_ok h1
    obtain ⟨r2, n2, h2⟩ : ∃ r2 n2, PaymentReceived env n1 (some t) = (r2, n2) := ⟨_, _, rfl⟩
    have c2 := PaymentReceived_calls_of_eq h2
    have p2 := PaymentReceived_some_returns env n1 t
    have s2 := PaymentReceived_sent_cases env n1 t
    rw [h2] at p2 s2
    obtain ⟨e2, rfl⟩ := p2
    simp only [] at s2
    have hres : handleSuccessfulTransaction env st (some t) = (.ret e2, ⟨st.s, n2⟩) := by
      cases e2 <;> simp only [handleSuccessfulTransaction, h1, h2]
    have hcalls : n2.calls =
        st.net.calls ++ [.paymentStarted (some t), .paymentReceived (some t)] := by
      rw [c2, c1]
      simp
    refine ⟨?_, ?_, ?_, ⟨_, congrArg Prod.fst hres⟩, by rw [hres], ?_⟩
    · intro err n1b h
      rw [h1] at h
      injection h with ha hb
      injection ha with ha
      cases ha
    · intro n1b h
      rw [h1] at h
      injection h with ha hb
      subst hb
      constructor
      · intro err n2b h
        rw [h2] at h
        injection h with ha hb
        injection ha with ha
        subst ha hb
        exact ⟨hres, hcalls⟩
      · intro n2b h
        rw [h2] at h
        injection h with ha hb
        injection ha with ha
        subst ha hb
        refine ⟨hres, hcalls, ?_⟩
        rw [PaymentReceived_sent_of_ok h2, s1ok]
        simp
    · rw [hres]
      constructor
      · intro h
        injection h with h
        subst h
        exact ⟨n1, n2, h1, h2⟩
      · rintro ⟨n1b, n2b, ha, hb⟩
        rw [h1] at ha
        injection ha with _ hn
        subst hn
        rw [h2] at hb
        exact congrArg Prod.fst hb
    · rw [hres]
      rcases s2 with s2 | s2
      · exact ⟨1, by decide, by simp [s2, s1ok]⟩
      · exact ⟨2, by decide, by simp [s2, s1ok]⟩

/-- C14, at the trade of alice and bob with a gateway that accepts both
transitions. -/
theorem handleSuccessfulTransaction_sequence_witness :
    (handleSuccessfulTransaction demoEnv afterAliceBob (some demoTrade)).1 = .ret none ∧
      (handleSuccessfulTransaction demoEnv afterAliceBob (some demoTrade)).2.net.calls =
        afterAliceBob.net.calls ++
          [.paymentStarted (some demoTrade), .paymentReceived (some demoTrade)] :=
  have h := (((handleSuccessfulTransaction_sequence demoEnv afterAliceBob demoTrade).2.1
    (PaymentStarted demoEnv afterAliceBob.net (some demoTrade)).2 rfl).2
    (PaymentReceived demoEnv (PaymentStarted demoEnv afterAliceBob.net (some demoTrade)).2
      (some demoTrade)).2 rfl)
  ⟨congrArg Prod.fst h.1, by rw [h.1]; exact h.2.1⟩

/-- C15: the code at a failing input.  Alice and bob are matched on the
fresh service; the gateway answers the publish request with the offer ID
`offer-1` and bob's registration with the account ID `acc-bob`.  The take
request goes to the path of `acc-bob`, the seller's payment-account ID, not
to the path of the published offer: `api.TakeOffer` formats the path with
`offer.PaymentAccountID`, and the answer of `api.PublishOffer` is never
read. -/
theorem take_request_path_is_account_id :
    (PublishOffer demoEnv
        (RegisterPaymentAccounts demoEnv afterAliceBuy.net (registrationRequest aliceBuy)).2
        (publishRequest { registrationRequest aliceBuy with ID := "acc-alice" }
          aliceBuy)).1.toOption = some demoOffer ∧
      demoOffer.ID = "offer-1" ∧
      afterAliceBob.net.sent.map (fun r => (r.Method, r.URL)) =
        [("POST", "http://localhost:8080/api/v1/payment-accounts"),
          ("POST", "http://localhost:8080/api/v1/offers"),
          ("POST", "http://localhost:8080/api/v1/payment-accounts"),
          ("POST", "http://localhost:8080/api/v1/offers/acc-bob/take")] ∧
      afterAliceBob.net.sent.getLast? =
        some ⟨"POST", BisqAPIURL ++ TakeOfferURL "acc-bob", "application/json",
          .offerToTake (takeRequest { registrationRequest bobSell with ID := "acc-bob" }
            aliceBuy)⟩ ∧
      BisqAPIURL ++ TakeOfferURL "acc-bob" ≠ BisqAPIURL ++ TakeOfferURL demoOffer.ID := by
  decide

end Claims

end Bisq
